import Mathlib

/-!
Shallow embedding of the flagit ISMN quality-control engine
(src/flagit/flagit.py and src/flagit/settings.py) and proofs about it.

Data cells are modelled as `Option ℚ`: `none` is the missing marker (NaN),
`some q` a finite float value (floats abstracted by rationals).
Derived ratio columns can additionally hold infinities produced by division
by zero, so they live in the extended type `XV`.
-/

set_option maxHeartbeats 1000000
set_option maxRecDepth 4000

/- The core rational-number primitives are compiled to C and left
non-reducible in Lean; marking them reducible lets `decide` and `rfl`
evaluate the model on concrete inputs through the kernel. -/
set_option allowUnsafeReducibility true in
attribute [reducible] Rat.mul Rat.sub Rat.add Rat.div Rat.inv Rat.neg Rat.blt
  Rat.divInt Rat.normalize Rat.ofInt Rat.instIntCast Rat.instNatCast
  Rat.floor Rat.instOfNat Rat.instLE Rat.instLT

/-- Decidable equality for `Except` results. -/
instance instDecEqExcept {e a : Type} [DecidableEq e] [DecidableEq a] :
    DecidableEq (Except e a) := fun x y =>
  match x, y with
  | .ok u, .ok v =>
    if h : u = v then isTrue (by rw [h])
    else isFalse (fun hh => h (Except.ok.inj hh))
  | .error u, .error v =>
    if h : u = v then isTrue (by rw [h])
    else isFalse (fun hh => h (Except.error.inj hh))
  | .ok _, .error _ => isFalse (fun hh => Except.noConfusion hh)
  | .error _, .ok _ => isFalse (fun hh => Except.noConfusion hh)

namespace Flagit

/-- Extended value type for derived pandas columns: a finite number, an
infinity produced by division by zero, or NaN (missing / undefined). -/
inductive XV where
  | num (q : ℚ)
  | pinf
  | ninf
  | nan
deriving DecidableEq, Repr

namespace XV

/-- Embed an optional rational (data cell) into `XV`: missing becomes NaN. -/
def ofO : Option ℚ → XV
  | some q => num q
  | none => nan

/-- IEEE-style division: x/0 gives a signed infinity for x ≠ 0, 0/0 gives
NaN, NaN propagates, inf/inf gives NaN. -/
def div : XV → XV → XV
  | num a, num b =>
      if b = 0 then (if a = 0 then nan else if 0 < a then pinf else ninf)
      else num (a / b)
  | num _, pinf => num 0
  | num _, ninf => num 0
  | pinf, num b => if 0 ≤ b then pinf else ninf
  | ninf, num b => if 0 ≤ b then ninf else pinf
  | _, _ => nan

/-- IEEE-style subtraction on extended values; NaN propagates, ∞ - ∞ = NaN. -/
def sub : XV → XV → XV
  | num a, num b => num (a - b)
  | num _, pinf => ninf
  | num _, ninf => pinf
  | pinf, num _ => pinf
  | ninf, num _ => ninf
  | pinf, ninf => pinf
  | ninf, pinf => ninf
  | _, _ => nan

/-- Absolute value; |±∞| = +∞, |NaN| = NaN. -/
def abs : XV → XV
  | num a => num |a|
  | pinf => pinf
  | ninf => pinf
  | nan => nan

/-- IEEE comparison `<`: any comparison involving NaN is false. -/
def ltB : XV → XV → Bool
  | num a, num b => a < b
  | num _, pinf => true
  | ninf, num _ => true
  | ninf, pinf => true
  | _, _ => false

/-- IEEE comparison `≤` (used for filters like `rise >= 0.25`). -/
def leB : XV → XV → Bool
  | num a, num b => a ≤ b
  | num _, pinf => true
  | ninf, num _ => true
  | ninf, pinf => true
  | pinf, pinf => true
  | ninf, ninf => true
  | _, _ => false

/-- IEEE equality: NaN is not equal to anything, including itself. -/
def eqB : XV → XV → Bool
  | num a, num b => a = b
  | pinf, pinf => true
  | ninf, ninf => true
  | _, _ => false

/-- NaN test, mirroring `Series.isna`. -/
def isna : XV → Bool
  | nan => true
  | _ => false

end XV

/-- Round a rational to the nearest integer, ties to even, as numpy and
pandas `round` do for floats; the floor is computed as flooring integer
division of numerator by denominator. -/
def roundHalfEven (q : ℚ) : ℤ :=
  let f : ℤ := Int.fdiv q.num q.den
  let r : ℚ := q - (f : ℚ)
  if r < 1/2 then f
  else if 1/2 < r then f + 1
  else if f % 2 = 0 then f else f + 1

/-- Round a rational to `p` decimal places (ties to even). -/
def roundQ (p : ℕ) (q : ℚ) : ℚ :=
  (roundHalfEven (q * (10 ^ p : ℕ)) : ℚ) / ((10 ^ p : ℕ) : ℚ)

/-- Round an extended value to `p` decimal places; NaN and infinities are
unchanged, as for float rounding. -/
def xvRound (p : ℕ) : XV → XV
  | XV.num q => XV.num (roundQ p q)
  | v => v

/-- Round an optional rational to `p` decimal places. -/
def roundO (p : ℕ) : Option ℚ → Option ℚ
  | some q => some (roundQ p q)
  | none => none

/-- Comparison `a < b` on data cells; false when either side is missing. -/
def optLt (a b : Option ℚ) : Bool :=
  match a, b with
  | some a, some b => a < b
  | _, _ => false

/-- Comparison `a > b` on data cells; false when either side is missing. -/
def optGt (a b : Option ℚ) : Bool :=
  match a, b with
  | some a, some b => b < a
  | _, _ => false

/-- Float equality on data cells: NaN compares unequal to everything. -/
def optEqV (a b : Option ℚ) : Bool :=
  match a, b with
  | some a, some b => a = b
  | _, _ => false

/-- Subtraction of data cells; the missing marker propagates. -/
def optSub (a b : Option ℚ) : Option ℚ :=
  match a, b with
  | some a, some b => some (a - b)
  | _, _ => none

/-- Multiplication of data cells; the missing marker propagates. -/
def optMul (a b : Option ℚ) : Option ℚ :=
  match a, b with
  | some a, some b => some (a * b)
  | _, _ => none

/-- Values present (non-missing) at window positions `lo, lo+1, …, lo+w-1`
of the column `x`; negative positions are outside the frame. `x` must
return `none` beyond the end of the frame. -/
def winVals (x : ℕ → Option ℚ) (lo : ℤ) (w : ℕ) : List ℚ :=
  (List.range w).filterMap (fun k =>
    let p : ℤ := lo + k
    if 0 ≤ p then x p.toNat else none)

/-- Arithmetic mean of a list of rationals (0 on the empty list). -/
def meanQ (l : List ℚ) : ℚ := l.sum / l.length

/-- Sample variance (divisor `n - 1`) of a list of rationals. -/
def varQ (l : List ℚ) : ℚ :=
  ((l.map (fun v => (v - meanQ l) ^ 2)).sum) / (l.length - 1 : ℕ)

/-- `rolling(window=w, min_periods=m).sum()` at position `i` (causal
window ending at `i`); NaN cells are skipped, and the result is missing
when fewer than `m` values are present. -/
def rollSum (w m : ℕ) (x : ℕ → Option ℚ) (i : ℕ) : Option ℚ :=
  let vs := winVals x ((i : ℤ) - w + 1) w
  if m ≤ vs.length then some vs.sum else none

/-- `rolling(window=w, min_periods=m).mean()` at position `i`. -/
def rollMean (w m : ℕ) (x : ℕ → Option ℚ) (i : ℕ) : Option ℚ :=
  let vs := winVals x ((i : ℤ) - w + 1) w
  if m ≤ vs.length then some (meanQ vs) else none

/-- `rolling(window=w, min_periods=m).var()` at position `i`; pandas uses
sample variance, which is NaN when only one value is present. -/
def rollVar (w m : ℕ) (x : ℕ → Option ℚ) (i : ℕ) : Option ℚ :=
  let vs := winVals x ((i : ℤ) - w + 1) w
  if m ≤ vs.length ∧ 2 ≤ vs.length then some (varQ vs) else none

/-- Maximum of a list of rationals, `none` when empty. -/
def listMax : List ℚ → Option ℚ :=
  List.foldl (fun acc v =>
    match acc with
    | none => some v
    | some mx => some (max mx v)) none

/-- Minimum of a list of rationals, `none` when empty. -/
def listMin : List ℚ → Option ℚ :=
  List.foldl (fun acc v =>
    match acc with
    | none => some v
    | some mn => some (min mn v)) none

/-- `rolling(window=w, min_periods=m).max()` at position `i`. -/
def rollMax (w m : ℕ) (x : ℕ → Option ℚ) (i : ℕ) : Option ℚ :=
  let vs := winVals x ((i : ℤ) - w + 1) w
  if m ≤ vs.length then listMax vs else none

/-- `rolling(window=w, min_periods=m).min()` at position `i`. -/
def rollMin (w m : ℕ) (x : ℕ → Option ℚ) (i : ℕ) : Option ℚ :=
  let vs := winVals x ((i : ℤ) - w + 1) w
  if m ≤ vs.length then listMin vs else none

/-- Centered 25-sample rolling mean with `min_periods = m`
(window `[i-12, i+12]`). -/
def rollMeanC25 (m : ℕ) (x : ℕ → Option ℚ) (i : ℕ) : Option ℚ :=
  let vs := winVals x ((i : ℤ) - 12) 25
  if m ≤ vs.length then some (meanQ vs) else none

/-- Comparison `a ≤ b` on data cells; false when either side is missing. -/
def optLe (a b : Option ℚ) : Bool :=
  match a, b with
  | some a, some b => a ≤ b
  | _, _ => false

/-- The full centered 25-sample window `[i-12, i+12]` of `x`, provided all
25 positions are inside the frame and hold non-missing values (as required
by `min_periods=25` together with a weighted window). -/
def fullWin25 (x : ℕ → Option ℚ) (i : ℕ) : Option (List ℚ) :=
  (List.range 25).mapM (fun k =>
    let p : ℤ := (i : ℤ) - 12 + k
    if 0 ≤ p then x p.toNat else none)

/-- `diff(k)` at position `i`: `x[i] - x[i-k]`, missing for `i < k`. -/
def diffF (k : ℕ) (x : ℕ → Option ℚ) (i : ℕ) : Option ℚ :=
  if i < k then none else optSub (x i) (x (i - k))

/-- The raw values passed to the `peak` rolling apply at label `j`:
window positions `j-2 … j+1` (window 4, centered), clipped to the frame
`[0, n)`, missing cells included. -/
def peakWin (x : ℕ → Option ℚ) (n j : ℕ) : List (Option ℚ) :=
  (List.range 4).filterMap (fun k =>
    let p : ℤ := (j : ℤ) - 2 + k
    if 0 ≤ p ∧ p < (n : ℤ) then some (x p.toNat) else none)

/-- The `peak` helper of `flag_D06`: 1 when the second sample is a strict
local extremum of three consecutive samples, 2 for a two-hour flat peak
over four samples, 0 otherwise. Comparisons with a missing value fail. -/
def peakFun : List (Option ℚ) → ℚ
  | [a, b, c] =>
      if (optLt a b && optGt b c) || (optGt a b && optLt b c) then 1 else 0
  | [a, b, c, d] =>
      if (optLt a b && optGt b c) || (optGt a b && optLt b c) then 1
      else if (optLt a b && optEqV b c && optGt c d) ||
              (optGt a b && optEqV b c && optLt c d) then 2
      else 0
  | _ => 0

/-- The 14 ISMN quality-flag codes. -/
inductive Flag where
  | C01 | C02 | C03 | D01 | D02 | D03 | D04 | D05 | D06 | D07 | D08 | D09 | D10 | G
deriving DecidableEq, Repr

/-- A raw input row of the caller's DataFrame: an hourly timestamp and the
cell of each named column (absent columns simply carry no meaning). -/
structure DRow where
  t : ℕ
  val : String → Option ℚ

/-- The caller's DataFrame: column names in order, whether the index is a
DatetimeIndex, and the rows. -/
structure DFrame where
  cols : List String
  dtIndex : Bool
  rows : List DRow

/-- A working row of the engine's frame after `__init__`: the named data
cells the detectors read, the Savitzky-Golay derivative columns, and the
`qflag` cell (`none` models a NaN qflag cell created by resampling). -/
structure WRow where
  t : ℕ
  sm : Option ℚ
  pv : Option ℚ
  stv : Option ℚ
  atv : Option ℚ
  gstv : Option ℚ
  prec : Option ℚ
  gprec : Option ℚ
  hsm : Option ℚ
  d1 : Option ℚ
  d2 : Option ℚ
  qf : Option (List Flag)
deriving DecidableEq, Repr

/-- Python-level failures surfaced by the engine. -/
inductive PyErr where
  | formatError
  | indexError
  | keyError (c : String)
  | attrError (c : String)
deriving DecidableEq, Repr

/-- The engine state: current frame columns, index kind, the primary
variable name (`self.variable`), the saturation point and sensor depth,
and the working rows. -/
structure IState where
  cols : List String
  dtIndex : Bool
  varName : String
  sat_point : Option ℚ
  depth_from : Option ℚ
  rows : List WRow
deriving DecidableEq, Repr

/-- The frame returned by `run` (`self.data[keys]`). -/
structure QFrame where
  cols : List String
  rows : List WRow
deriving DecidableEq, Repr

/-- Build a working row from a raw row, given the primary variable name. -/
def mkWRow (v : String) (r : DRow) : WRow :=
  { t := r.t, sm := r.val "soil_moisture", pv := r.val v,
    stv := r.val "soil_temperature", atv := r.val "air_temperature",
    gstv := r.val "gldas_soil_temperature", prec := r.val "precipitation",
    gprec := r.val "gldas_precipitation", hsm := r.val "highest_sm",
    d1 := r.val "deriv1", d2 := r.val "deriv2", qf := some [] }

/-- Build the post-`__init__` state: the `qflag` column of empty sets is
added and the primary variable recorded. -/
def mkState (df : DFrame) (v : String) (sat dep : Option ℚ) : IState :=
  { cols := if "qflag" ∈ df.cols then df.cols else df.cols ++ ["qflag"],
    dtIndex := df.dtIndex, varName := v, sat_point := sat, depth_from := dep,
    rows := df.rows.map (mkWRow v) }

/-- `Interface.__init__`: reject anything that is not a DataFrame with a
`FormatError`; otherwise take `soil_moisture` as primary variable if that
column exists, and the first column otherwise (`data.keys()[0]`, which
raises an `IndexError` on a frame with no columns). -/
def initIface (inp : Option DFrame) (sat dep : Option ℚ) : Except PyErr IState :=
  match inp with
  | none => .error .formatError
  | some df =>
    if "soil_moisture" ∈ df.cols then .ok (mkState df "soil_moisture" sat dep)
    else
      match df.cols with
      | [] => .error .indexError
      | c :: _ => .ok (mkState df c sat dep)

/-- Column accessors on working rows (NaN beyond the end of the frame). -/
def smF (rows : List WRow) : ℕ → Option ℚ := fun i => (rows.get? i).bind WRow.sm

/-- Primary-variable column accessor. -/
def pvF (rows : List WRow) : ℕ → Option ℚ := fun i => (rows.get? i).bind WRow.pv

/-- `deriv1` column accessor. -/
def d1F (rows : List WRow) : ℕ → Option ℚ := fun i => (rows.get? i).bind WRow.d1

/-- `deriv2` column accessor. -/
def d2F (rows : List WRow) : ℕ → Option ℚ := fun i => (rows.get? i).bind WRow.d2

/-- `precipitation` column accessor. -/
def precF (rows : List WRow) : ℕ → Option ℚ := fun i => (rows.get? i).bind WRow.prec

/-- `gldas_precipitation` column accessor. -/
def gprecF (rows : List WRow) : ℕ → Option ℚ := fun i => (rows.get? i).bind WRow.gprec

/-- `highest_sm` column accessor. -/
def hsmF (rows : List WRow) : ℕ → Option ℚ := fun i => (rows.get? i).bind WRow.hsm

/-- `qflag` cell at position `i`. -/
def qfF (rows : List WRow) (i : ℕ) : Option (List Flag) := (rows.get? i).bind WRow.qf

/-- Timestamp (index label) at position `i`. -/
def tAt (rows : List WRow) (i : ℕ) : ℕ := ((rows.get? i).map WRow.t).getD 0

/-- Add a tag to a flag set (`set.add`: idempotent). -/
def addFlag (tg : Flag) (l : List Flag) : List Flag := if tg ∈ l then l else l ++ [tg]

/-- Add a tag to a row's qflag cell; a NaN qflag cell stays NaN. -/
def addFlagRow (tg : Flag) (r : WRow) : WRow := { r with qf := r.qf.map (addFlag tg) }

/-- Map a function that also receives the position, starting at index
`k`. -/
def mapIdxGo (f : ℕ → a → b) (k : ℕ) : List a → List b
  | [] => []
  | x :: rest => f k x :: mapIdxGo f (k + 1) rest

/-- Add `tg` to the qflag set of every row whose position satisfies `p`
(the `self.data['qflag'][index].apply(lambda x: x.add(tag))` idiom, with
the index set described positionally). -/
def markRows (p : ℕ → Bool) (tg : Flag) (rows : List WRow) : List WRow :=
  mapIdxGo (fun i r => if p i then addFlagRow tg r else r) 0 rows

/-- Add `tg` to the qflag set of every row whose timestamp is in `ts`. -/
def markTs (ts : List ℕ) (tg : Flag) (rows : List WRow) : List WRow :=
  rows.map (fun r => if r.t ∈ ts then addFlagRow tg r else r)

/-- Append a column name if not already present (pandas column creation
keeps existing positions and appends new names). -/
def addCol (c : String) (cols : List String) : List String :=
  if c ∈ cols then cols else cols ++ [c]

/-- Append several column names. -/
def addCols (cs : List String) (cols : List String) : List String :=
  cs.foldl (fun acc c => addCol c acc) cols

/-- `settings.Variables.low_boundary` lookup table. -/
def low_boundary : String → Option ℚ
  | "soil_moisture" => some 0
  | "soil_temperature" => some (-60)
  | "air_temperature" => some (-60)
  | "precipitation" => some 0
  | "surface_temperature" => some (-60)
  | "soil_suction" => some 0
  | "snow_water_equivalent" => some 0
  | "snow_depth" => some 0
  | _ => none

/-- `settings.Variables.hi_boundary` lookup table. -/
def hi_boundary : String → Option ℚ
  | "soil_moisture" => some 60
  | "soil_temperature" => some 60
  | "air_temperature" => some 60
  | "precipitation" => some 100
  | "surface_temperature" => some 60
  | "soil_suction" => some 2500
  | "snow_water_equivalent" => some 10000
  | "snow_depth" => some 10000
  | _ => none

/-- `settings.Variables.ancillary_ts_lower`. -/
def ancillary_ts_lower : ℚ := 0

/-- `settings.Variables.ancillary_ta_lower`. -/
def ancillary_ta_lower : ℚ := 0

/-- `settings.Variables.ancillary_p_min`. -/
def ancillary_p_min : ℚ := 1/5

/-- Nearest-edge index used by the Savitzky-Golay filter in mode
`nearest`. -/
def nearestIdx (n : ℕ) (j : ℤ) : ℕ :=
  if j < 0 then 0 else if j < (n : ℤ) then j.toNat else n - 1

/-- `Interface.apply_savgol`: first and second Savitzky-Golay derivatives
with window 3 and polynomial order 2, whose closed forms are
`deriv1[i] = (x[i+1] - x[i-1]) / 2` and `deriv2[i] = x[i-1] - 2 x[i] + x[i+1]`
with nearest-edge extension; NaN input cells propagate as in the
convolution. -/
def apply_savgol (s : IState) : IState :=
  let n := s.rows.length
  let x := smF s.rows
  let xn : ℤ → Option ℚ := fun j => x (nearestIdx n j)
  { s with
    cols := addCols ["deriv1", "deriv2"] s.cols,
    rows := mapIdxGo (fun i r =>
      { r with
        d1 := (match xn ((i : ℤ) - 1), xn ((i : ℤ) + 1) with
          | some a, some c => some ((c - a) / 2)
          | _, _ => none),
        d2 := (match xn ((i : ℤ) - 1), x i, xn ((i : ℤ) + 1) with
          | some a, some b, some c => some (a - 2 * b + c)
          | _, _, _ => none) }) 0 s.rows }

/-- `flag_C01`: tag records whose primary value is below the lower
boundary of the variable; an unknown variable raises a `KeyError` from the
settings dictionary. -/
def flag_C01 (s : IState) : Except PyErr IState :=
  match low_boundary s.varName with
  | none => .error (.keyError s.varName)
  | some b =>
    .ok { s with rows := markRows (fun i => optLt (pvF s.rows i) (some b)) .C01 s.rows }

/-- `flag_C02`: tag records whose primary value is above the upper
boundary of the variable. -/
def flag_C02 (s : IState) : Except PyErr IState :=
  match hi_boundary s.varName with
  | none => .error (.keyError s.varName)
  | some b =>
    .ok { s with rows := markRows (fun i => optGt (pvF s.rows i) (some b)) .C02 s.rows }

/-- `flag_C03`: skip when `self.sat_point` is falsy (absent or zero),
otherwise tag records with soil moisture strictly above the saturation
point; accessing `data.soil_moisture` on a frame without that column
raises an `AttributeError`. -/
def flag_C03 (s : IState) : Except PyErr IState :=
  match s.sat_point with
  | none => .ok s
  | some q =>
    if q = 0 then .ok s
    else if "soil_moisture" ∈ s.cols then
      .ok { s with rows := markRows (fun i => optGt (smF s.rows i) (some q)) .C03 s.rows }
    else .error (.attrError "soil_moisture")

/-- `flag_D01`: when an in-situ soil-temperature column exists, tag
records where it is below `ancillary_ts_lower`. -/
def flag_D01 (s : IState) : Except PyErr IState :=
  if "soil_temperature" ∈ s.cols then
    .ok { s with rows := (markRows
      (fun i => optLt ((s.rows.get? i).bind WRow.stv) (some ancillary_ts_lower)) .D01 s.rows) }
  else .ok s

/-- `flag_D02`: when an in-situ air-temperature column exists, tag records
where it is below `ancillary_ta_lower`. -/
def flag_D02 (s : IState) : Except PyErr IState :=
  if "air_temperature" ∈ s.cols then
    .ok { s with rows := (markRows
      (fun i => optLt ((s.rows.get? i).bind WRow.atv) (some ancillary_ta_lower)) .D02 s.rows) }
  else .ok s

/-- `flag_D03`: when a GLDAS soil-temperature column exists, tag records
where it is below `ancillary_ts_lower`. -/
def flag_D03 (s : IState) : Except PyErr IState :=
  if "gldas_soil_temperature" ∈ s.cols then
    .ok { s with rows := (markRows
      (fun i => optLt ((s.rows.get? i).bind WRow.gstv) (some ancillary_ts_lower)) .D03 s.rows) }
  else .ok s

/-- Encodes the float comparison `rise > 2·√var` of `flag_D04`/`flag_D05`
exactly over ℚ: since `2·√var ≥ 0`, the comparison holds iff the rise is
positive and `rise² > 4·var`; it is false when either side is missing
(a one-sample window has NaN standard deviation). -/
def gtTwiceStd (rise v : Option ℚ) : Bool :=
  match rise, v with
  | some r, some v => decide (0 < r ∧ 4 * v < r ^ 2)
  | _, _ => false

/-- The flag condition of `flag_D04` at position `i`: positive one-hour
rise, 24-hour rise above twice the 25-sample rolling standard deviation,
and 24-hour precipitation total (rounded to 1 decimal) below the
minimum-precipitation threshold. -/
def d04cond (rows : List WRow) (minp : ℚ) (i : ℕ) : Bool :=
  let x := smF rows
  optGt (diffF 1 x i) (some 0) &&
  gtTwiceStd (diffF 24 x i) (rollVar 25 1 x i) &&
  optLt (roundO 1 (rollSum 24 1 (precF rows) i)) (some minp)

/-- The minimum-precipitation threshold of `flag_D04`/`flag_D05`:
`ancillary_p_min` (0.2 mm) by default, scaled to
`depth · 0.05 · 0.5 · 1000` for a nonzero sensor depth. -/
def minPrec : Option ℚ → ℚ
  | none => ancillary_p_min
  | some d => if d ≠ 0 then d * (1/20) * (1/2) * 1000 else ancillary_p_min

/-- Shared body of `flag_D04` after the precipitation-column and depth
checks. -/
def flagD04core (s : IState) (minp : ℚ) : Except PyErr IState :=
  if "soil_moisture" ∈ s.cols then
    .ok { s with
      cols := addCols ["total_precipitation", "std_x2", "rise24h", "rise1h"] s.cols,
      rows := markRows (d04cond s.rows minp) .D04 s.rows }
  else .error (.keyError "soil_moisture")

/-- `flag_D04`: soil-moisture rise without an in-situ precipitation event;
skipped entirely when no precipitation column exists or when the sensor
depth is at least 0.1 m; the minimum precipitation is 0.2 mm, scaled by
`depth · 0.05 · 0.5 · 1000` for a nonzero depth below 0.1 m. -/
def flag_D04 (s : IState) : Except PyErr IState :=
  if "precipitation" ∈ s.cols then
    match s.depth_from with
    | some d =>
      if (1/10 : ℚ) ≤ d then .ok s
      else flagD04core s (minPrec (some d))
    | none => flagD04core s (minPrec none)
  else .ok s

/-- The flag condition of `flag_D05` (GLDAS precipitation, unrounded
24-hour total). -/
def d05cond (rows : List WRow) (minp : ℚ) (i : ℕ) : Bool :=
  let x := smF rows
  optGt (diffF 1 x i) (some 0) &&
  gtTwiceStd (diffF 24 x i) (rollVar 25 1 x i) &&
  optLt (rollSum 24 1 (gprecF rows) i) (some minp)

/-- Shared body of `flag_D05` after the column and depth checks. -/
def flagD05core (s : IState) (minp : ℚ) : Except PyErr IState :=
  if "soil_moisture" ∈ s.cols then
    .ok { s with
      cols := addCols ["gldas_total_precipitation", "gl_std_x2", "gl_rise24h", "gl_rise1h"] s.cols,
      rows := markRows (d05cond s.rows minp) .D05 s.rows }
  else .error (.keyError "soil_moisture")

/-- `flag_D05`: soil-moisture rise without a GLDAS precipitation event;
same structure as `flag_D04`. -/
def flag_D05 (s : IState) : Except PyErr IState :=
  if "gldas_precipitation" ∈ s.cols then
    match s.depth_from with
    | some d =>
      if (1/10 : ℚ) ≤ d then .ok s
      else flagD05core s (minPrec (some d))
    | none => flagD05core s (minPrec none)
  else .ok s

/-- The ratio column `eq4` of `flag_D06`:
`round(sm.shift(-1).div(sm).shift(1), 3)`, which at position `i ≥ 1`
equals `round(x[i] / x[i-1], 3)`. -/
def eq4F (x : ℕ → Option ℚ) (i : ℕ) : XV :=
  xvRound 3 (if i = 0 then XV.nan else XV.div (XV.ofO (x i)) (XV.ofO (x (i - 1))))

/-- The ratio column `eq5` of `flag_D06`:
`round(abs(deriv2.div(deriv2.shift(-2)).shift(1)), 3)`, i.e.
`round(|deriv2[i-1] / deriv2[i+1]|, 3)`. -/
def eq5F (d2 : ℕ → Option ℚ) (i : ℕ) : XV :=
  xvRound 3 (XV.abs (if i = 0 then XV.nan
    else XV.div (XV.ofO (d2 (i - 1))) (XV.ofO (d2 (i + 1)))))

/-- The relative-variance column `eq6` of `flag_D06`: absolute centered
25-sample variance excluding the center divided by the centered 25-sample
boxcar mean with zero center weight; requires the full window. -/
def eq6F (x : ℕ → Option ℚ) (i : ℕ) : XV :=
  XV.div (XV.abs (XV.ofO ((fullWin25 x i).map (fun vs => varQ (vs.eraseIdx 12)))))
    (XV.ofO ((fullWin25 x i).map (fun vs => (vs.eraseIdx 12).sum / 24)))

/-- The peak column of `flag_D06` before the `shift(-1)`:
`rolling(min_periods=3, window=4, center=True).apply(peak, raw=True)`. -/
def peakC (x : ℕ → Option ℚ) (n j : ℕ) : Option ℚ :=
  let w := peakWin x n j
  if 3 ≤ (w.filterMap id).length then some (peakFun w) else none

/-- The column `eq_new1` of `flag_D06` (peak column shifted by −1). -/
def eqNew1F (x : ℕ → Option ℚ) (n i : ℕ) : Option ℚ := peakC x n (i + 1)

/-- The `spike_2h` column of `flag_D06`: `eq_new1.shift(1) > 1`. -/
def spike2hF (x : ℕ → Option ℚ) (n i : ℕ) : Bool :=
  if i = 0 then false else optGt (eqNew1F x n (i - 1)) (some 1)

/-- The `spike` column of `flag_D06`: the four-criteria conjunction. -/
def spikeF (x d2 : ℕ → Option ℚ) (n i : ℕ) : Bool :=
  ((XV.ltB (XV.num (23/20)) (eq4F x i) || XV.ltB (eq4F x i) (XV.num (17/20))) ||
    spike2hF x n i) &&
  (XV.ltB (XV.num (4/5)) (eq5F d2 i) && XV.ltB (eq5F d2 i) (XV.num (6/5))) &&
  XV.ltB (eq6F x i) (XV.num 1) &&
  optGt (eqNew1F x n i) (some 0)

/-- The index set of `flag_D06`: a spike at `i`, or a spike at `i-1`
together with `spike_2h` at `i` (second hour of a two-hour spike). -/
def d06cond (x d2 : ℕ → Option ℚ) (n i : ℕ) : Bool :=
  spikeF x d2 n i || (decide (1 ≤ i) && spikeF x d2 n (i - 1) && spike2hF x n i)

/-- `flag_D06`: spike detection; raises a `KeyError` when the
soil-moisture or `deriv2` column is absent. -/
def flag_D06 (s : IState) : Except PyErr IState :=
  if "soil_moisture" ∉ s.cols then .error (.keyError "soil_moisture")
  else if "deriv2" ∉ s.cols then .error (.keyError "deriv2")
  else
    .ok { s with
      cols := addCols ["eq4", "eq5", "eq6", "eq_new1", "spike_2h", "spike"] s.cols,
      rows := markRows (d06cond (smF s.rows) (d2F s.rows) s.rows.length) .D06 s.rows }

/-- Float comparison `!= 0` on a data cell: NaN counts as different from
zero, as in pandas. -/
def neq0 (c : Option ℚ) : Bool :=
  match c with
  | some v => decide (v ≠ 0)
  | none => true

/-- `np.isclose(v, 1, atol=1e-2)` with the default `rtol=1e-5`:
`|v - 1| ≤ 0.01 + 1e-5`; false for NaN and infinities. -/
def isClose1 : XV → Bool
  | XV.num q => decide (|q - 1| ≤ 1/100 + 1/100000)
  | _ => false

/-- The `absolute_change` column of `flag_D07`: `sm - sm.shift(1)`. -/
def acF (x : ℕ → Option ℚ) (i : ℕ) : Option ℚ :=
  if i = 0 then none else optSub (x i) (x (i - 1))

/-- The base five-criteria break condition of `flag_D07` at position `i`. -/
def d07base (x d1 d2 : ℕ → Option ℚ) (i : ℕ) : Bool :=
  XV.ltB (XV.num (1/10)) (XV.abs (XV.div (XV.ofO (acF x i)) (XV.ofO (x i)))) &&
  optGt ((acF x i).map (fun v => |v|)) (some 1) &&
  neq0 (x i) &&
  optGt ((d1 i).map (fun v => |v|)) ((rollMeanC25 4 d1 i).map (fun m => |m * 10|)) &&
  isClose1 (xvRound 1 (XV.abs (XV.div (XV.ofO (if i = 0 then none else d2 (i - 1)))
    (XV.ofO (d2 i))))) &&
  neq0 (d2 i) &&
  XV.ltB (XV.num 10) (XV.abs (XV.div (XV.ofO (d2 i)) (XV.ofO (d2 (i + 2)))))

/-- The unconditional drop-to-zero condition `eq_new2` of `flag_D07`. -/
def d07zero (x : ℕ → Option ℚ) (i : ℕ) : Bool :=
  optGt ((acF x i).map (fun v => |v|)) (some 5) && optEqV (x i) (some 0)

/-- The index set receiving D07 in `flag_D07` (`index_neg` together with
`index_zero`): base condition with negative first derivative, or an
unconditional drop to zero. -/
def d07negC (x d1 d2 : ℕ → Option ℚ) (i : ℕ) : Bool :=
  (d07base x d1 d2 i && optLt (d1 i) (some 0)) || d07zero x i

/-- The index set receiving D08 in `flag_D07` (`index_pos`): base
condition with positive first derivative. -/
def d07posC (x d1 d2 : ℕ → Option ℚ) (i : ℕ) : Bool :=
  d07base x d1 d2 i && optGt (d1 i) (some 0)

/-- `flag_D07`: break detection; drops (base condition with negative first
derivative, plus unconditional drops to zero) receive D07, jumps (base
condition with positive first derivative) receive D08. -/
def flag_D07 (s : IState) : Except PyErr IState :=
  if "soil_moisture" ∉ s.cols then .error (.keyError "soil_moisture")
  else if "deriv1" ∉ s.cols then .error (.keyError "deriv1")
  else if "deriv2" ∉ s.cols then .error (.keyError "deriv2")
  else
    .ok { s with
      cols := addCols ["absolute_change", "eq7", "eq8", "eq9", "eq9a", "eq_new2"] s.cols,
      rows := markRows (d07posC (smF s.rows) (d1F s.rows) (d2F s.rows)) .D08
        (markRows (d07negC (smF s.rows) (d1F s.rows) (d2F s.rows)) .D07 s.rows) }

/-- Accumulator of `plateau_mask`: clamp the running sum of event signals
to `[0, 1]` and emit each partial value. -/
def plateauGo (a : ℤ) : List ℤ → List ℤ
  | [] => []
  | e :: rest => (max (min (a + e) 1) 0) :: plateauGo (max (min (a + e) 1) 0) rest

/-- `plateau_mask` of `flag_D09`:
`reduce(lambda x, y: x + [max(min(x[-1] + y, 1), 0)], seq, [0])[1:]`. -/
def plateau_mask (l : List ℤ) : List ℤ := plateauGo 0 l

/-- Does a qflag cell mention the D07 code
(`qflag.astype(str).str.contains('D07')`)? -/
def containsD07 (q : Option (List Flag)) : Bool :=
  match q with
  | some l => Flag.D07 ∈ l
  | none => false

/-- The `rel_var` column of `flag_D09` at position `i` of the contracted
frame: 13-sample forward variance over mean, each rounded to 4 decimals,
with the NaN-and-zero patch applied. -/
def relVarF (x : ℕ → Option ℚ) (qhere : ℕ → Option ℚ) (i : ℕ) : XV :=
  let v := XV.div (XV.ofO (roundO 4 (rollVar 13 13 x (i + 12))))
    (XV.ofO (roundO 4 (rollMean 13 13 x (i + 12))))
  if v.isna && optEqV (qhere i) (some 0) then XV.num 0 else v

/-- An empty row created by `resample('H').asfreq()` for a missing hour:
every data cell is NaN, including the qflag cell. -/
def blankRow (t : ℕ) : WRow :=
  { t := t, sm := none, pv := none, stv := none, atv := none, gstv := none,
    prec := none, gprec := none, hsm := none, d1 := none, d2 := none, qf := none }

/-- `resample('H').asfreq()`: rebuild the hourly grid between the first
and last timestamp, keeping existing rows and inserting blank rows at
missing hours. -/
def resampleH (rows : List WRow) : List WRow :=
  match rows with
  | [] => []
  | r0 :: _ =>
    let t0 := r0.t
    let t1 := ((rows.getLast?).getD r0).t
    (List.range (t1 - t0 + 1)).map (fun k =>
      match rows.find? (fun r => r.t = t0 + k) with
      | some r => r
      | none => blankRow (t0 + k))

/-- `flag_D09`: low constant values after a D07 drop. The frame is first
contracted by dropping missing soil-moisture rows and finally re-expanded
to the hourly grid when the index is a DatetimeIndex. -/
def flag_D09 (s : IState) : Except PyErr IState :=
  if "soil_moisture" ∉ s.cols then .error (.keyError "soil_moisture")
  else
    let rows1 := s.rows.filter (fun r => r.sm.isSome)
    let n := rows1.length
    let x := smF rows1
    let rv : ℕ → XV := relVarF x x
    let ev1 : ℕ → ℤ := fun i =>
      if containsD07 (qfF rows1 i) && XV.ltB (rv i) (XV.num (1/1000)) then 1 else 0
    let ev2 : ℕ → ℤ := fun i =>
      if XV.leB (XV.num (1/1000))
          (if i = 0 then XV.nan else XV.sub (rv i) (rv (i - 1))) && ev1 i = 0
      then -1 else ev1 i
    let plateau : List ℤ := plateau_mask ((List.range n).map ev2)
    let pl : ℕ → Option ℚ := fun i => (plateau.get? i).map (fun z => (z : ℚ))
    let marked := markRows (fun i => optGt (rollMax 13 13 pl i) (some 0)) .D09 rows1
    .ok { s with
      cols := addCols ["rel_var", "event", "plateau", "end"] s.cols,
      rows := if s.dtIndex then resampleH marked else marked }

/-- Recursive core of `renumber_plateaus`: the current group number is
emitted for true cells and incremented on each true-to-false transition;
the final cell receives `group · last`. -/
def renumberGo (g : ℤ) : List Bool → List ℤ
  | [] => []
  | [a] => [if a then g else 0]
  | a :: b :: rest =>
      (if a then g else 0) :: renumberGo (if a && !b then g + 1 else g) (b :: rest)

/-- `renumber_plateaus` of `flag_D10`: number contiguous runs of true
cells consecutively starting from 1. -/
def renumber_plateaus (l : List Bool) : List ℤ := renumberGo 1 l

/-- Insert an integer into a sorted duplicate-free list. -/
def insSorted (a : ℤ) : List ℤ → List ℤ
  | [] => [a]
  | y :: rest =>
      if a < y then a :: y :: rest
      else if a = y then y :: rest
      else y :: insSorted a rest

/-- Sorted distinct values of a list (the sorted group labels produced by
`groupby`). -/
def sortedDedup (l : List ℤ) : List ℤ := l.foldr insSorted []

/-- `groupby(...)['col'].first()`: the first non-missing value of a column
within the rows of group `g`. -/
def firstNN (grp : List ℤ) (col : List (Option ℚ)) (g : ℤ) : Option ℚ :=
  (((grp.zip col).filterMap (fun p => if p.1 = g then p.2 else none))).head?

/-- `groupby(...)['col'].last()`: the last non-missing value of a column
within the rows of group `g`. -/
def lastNN (grp : List ℤ) (col : List (Option ℚ)) (g : ℤ) : Option ℚ :=
  (((grp.zip col).filterMap (fun p => if p.1 = g then p.2 else none))).getLast?

/-- The `rise` table of `flag_D10`: groups whose first maximum-column
value, rounded to 3 decimals, is at least 0.25, with that value. -/
def riseList (groups grp : List ℤ) (col : List (Option ℚ)) : List (ℤ × ℚ) :=
  groups.filterMap (fun g =>
    match firstNN grp col g with
    | some v => if (1/4 : ℚ) ≤ roundQ 3 v then some (g, roundQ 3 v) else none
    | none => none)

/-- The `drop` table of `flag_D10`: groups whose last minimum-column
value, rounded to 3 decimals, is negative, with that value. -/
def dropList (groups grp : List ℤ) (col : List (Option ℚ)) : List (ℤ × ℚ) :=
  groups.filterMap (fun g =>
    match lastNN grp col g with
    | some v => if roundQ 3 v < 0 then some (g, roundQ 3 v) else none
    | none => none)

/-- One iteration of the `flag_D10` plateau loop for a surviving group
`(g, rise, drop)`: locate the search period, slice the plateau, and return
its timestamps when its mean exceeds 95% of the highest-soil-moisture
threshold. -/
def d10slice (rows1 : List WRow) (n : ℕ) (grp : List ℤ) (highest : Option ℚ)
    (hasHsm : Bool) (gr : ℤ × ℚ × ℚ) : List ℕ :=
  let d1 := d1F rows1
  let x := smF rows1
  let g := gr.1
  let r := gr.2.1
  let d := gr.2.2
  let VARper : ℕ → Bool := fun i =>
    (List.range 12).any (fun k => decide (k ≤ i) && grp.get? (i - k) == some g)
  let startI : ℕ :=
    match (List.range n).find? (fun i => VARper i && optEqV (d1 i) (some r)) with
    | some i => i
    | none => ((List.range n).find? VARper).getD 0
  let endI : ℕ :=
    match (List.range n).find? (fun i => VARper i && optEqV (d1 i) (some d)) with
    | some i => i
    | none => (((List.range n).filter VARper).getLast?).getD (n - 1)
  let sliceIdx : List ℕ := (List.range n).filter (fun i => startI ≤ i && i ≤ endI)
  let plateauVals : List ℚ := sliceIdx.filterMap x
  let pmean : Option ℚ := if plateauVals = [] then none else some (meanQ plateauVals)
  let thr : Option ℚ :=
    if hasHsm then
      let hv := sliceIdx.filterMap (hsmF rows1)
      (if hv = [] then none else some (meanQ hv)).map (fun m => m * (19/20))
    else highest.map (fun h => h * (19/20))
  if optGt pmean thr then sliceIdx.map (tAt rows1) else []

/-- `flag_D10`: saturated plateaus. Groups of low 12-hour variance are
numbered, groups bracketed by a rounded first-derivative rise of at least
0.25 and a negative drop are kept (after slicing off the first row of the
joined rise/drop table), and each accepted plateau's rows are tagged when
its mean exceeds 95% of the highest soil-moisture value below 60. -/
def flag_D10 (s : IState) : Except PyErr IState :=
  if "soil_moisture" ∉ s.cols then .error (.keyError "soil_moisture")
  else if "deriv1" ∉ s.cols then .error (.keyError "deriv1")
  else
    let highest : Option ℚ := listMax ((s.rows.filterMap WRow.sm).filter (fun v => v < 60))
    let rows1 := s.rows.filter (fun r => r.sm.isSome)
    let n := rows1.length
    let x := smF rows1
    let d1 := d1F rows1
    let VARb : List Bool := (List.range n).map (fun i =>
      optLe (rollVar 12 12 x (i + 11)) (some (1/20)))
    let grp : List ℤ := renumber_plateaus VARb
    let maxCol : List (Option ℚ) := (List.range n).map (fun i => rollMax 25 1 d1 (i + 12))
    let minCol : List (Option ℚ) := (List.range n).map (fun i => rollMin 25 1 d1 (i + 24))
    let groups : List ℤ := sortedDedup grp
    let riseL : List (ℤ × ℚ) := riseList groups grp maxCol
    let dropL : List (ℤ × ℚ) := dropList groups grp minCol
    let unionIdx : List ℤ := groups.filter (fun g =>
      (riseL.lookup g).isSome || (dropL.lookup g).isSome)
    let pp : List (ℤ × ℚ × ℚ) := (unionIdx.drop 1).filterMap (fun g =>
      match riseL.lookup g, dropL.lookup g with
      | some r, some d => some (g, r, d)
      | _, _ => none)
    let collected : List ℕ := pp.foldl (fun acc gr =>
      acc ++ d10slice rows1 n grp highest ("highest_sm" ∈ s.cols) gr) []
    .ok { s with
      cols := addCols (["VAR", "VAR_grouped", "maximum", "minimum"] ++
        (if pp = [] then [] else ["VAR_rise_drop"])) s.cols,
      rows := markTs collected .D10 rows1 }

/-- `flag_G`: tag every record whose qflag set is still empty with the
good flag (a NaN qflag cell is not equal to the empty set). -/
def flag_G (s : IState) : Except PyErr IState :=
  .ok { s with rows := s.rows.map (fun r => if r.qf = some [] then addFlagRow .G r else r) }

/-- Python truthiness of an optional float: `None` and `0` are falsy. -/
def truthy : Option ℚ → Bool
  | none => false
  | some q => decide (q ≠ 0)

/-- `Interface.run` with no `name` selector and `flag_numbers=False`:
record the frame's keys, merge the call's saturation point and depth into
falsy stored ones, compute the derivatives when the primary variable is
soil moisture, apply all detectors in order, and return the frame
restricted to the recorded keys. -/
def run (s0 : IState) (sat dep : Option ℚ) : Except PyErr QFrame :=
  let keys := s0.cols
  let s1 : IState :=
    { s0 with
      sat_point := if truthy s0.sat_point then s0.sat_point else sat,
      depth_from := if truthy s0.depth_from then s0.depth_from else dep }
  let s2 := if s1.varName = "soil_moisture" then apply_savgol s1 else s1
  Except.bind (flag_C01 s2) (fun s3 =>
  Except.bind (flag_C02 s3) (fun s4 =>
  Except.bind (flag_C03 s4) (fun s5 =>
  Except.bind (flag_D01 s5) (fun s6 =>
  Except.bind (flag_D02 s6) (fun s7 =>
  Except.bind (flag_D03 s7) (fun s8 =>
  Except.bind (flag_D04 s8) (fun s9 =>
  Except.bind (flag_D05 s9) (fun s10 =>
  Except.bind (flag_D06 s10) (fun s11 =>
  Except.bind (flag_D07 s11) (fun s12 =>
  Except.bind (flag_D09 s12) (fun s13 =>
  Except.bind (flag_D10 s13) (fun s14 =>
  Except.bind (flag_G s14) (fun s15 =>
  Except.ok { cols := keys, rows := s15.rows })))))))))))))

/-- A full engine invocation: construct the interface, then run with no
selector. -/
def runAll (inp : Option DFrame) (sat dep rsat rdep : Option ℚ) : Except PyErr QFrame :=
  Except.bind (initIface inp sat dep) (fun st => run st rsat rdep)

/-! ### Concrete inputs used by witnesses and counterexamples -/

/-- A one-column hourly soil-moisture DataFrame with the given cells. -/
def smDF (vals : List (Option ℚ)) : DFrame :=
  { cols := ["soil_moisture"], dtIndex := true,
    rows := mapIdxGo (fun i v =>
      { t := i, val := fun c => if c = "soil_moisture" then v else none }) 0 vals }

/-- A three-row hourly soil-moisture series whose middle sample is the
missing marker. -/
def exC1df : DFrame := smDF [some 5, none, some 5]

/-- A two-row hourly frame whose only (primary) column is in-situ air
temperature. -/
def exC4df : DFrame :=
  { cols := ["air_temperature"], dtIndex := true,
    rows := [{ t := 0, val := fun c => if c = "air_temperature" then some 1 else none },
             { t := 1, val := fun c => if c = "air_temperature" then some (-2) else none }] }

/-- A DataFrame with no columns at all. -/
def emptyDF : DFrame := { cols := [], dtIndex := false, rows := [] }

/-- A one-row soil-moisture state whose saturation point is 0. -/
def exC7st : IState := mkState (smDF [some 1]) "soil_moisture" (some 0) none

/-- The soil-moisture column of the counterexample series for the `eq4`
ratio: `x = [1, 2, 4]`. -/
def exC5x : ℕ → Option ℚ := fun i => ([some 1, some 2, some 4].getD i none : Option ℚ)

/-! ### General lemmas about the embedding -/

/-- A flag `f` is present in the qflag set of the row at position `i`. -/
def hasFlag (f : Flag) (rows : List WRow) (i : ℕ) : Prop :=
  ∃ l, qfF rows i = some l ∧ f ∈ l

theorem mapIdxGo_get? (f : ℕ → a → b) (k : ℕ) (l : List a) (j : ℕ) :
    (mapIdxGo f k l).get? j = (l.get? j).map (f (k + j)) := by
  induction l generalizing k j with
  | nil => simp [mapIdxGo]
  | cons x rest ih =>
    cases j with
    | zero => simp [mapIdxGo]
    | succ j =>
      simp only [mapIdxGo, List.get?_cons_succ, ih (k + 1) j]
      ring_nf

theorem mapIdxGo_length (f : ℕ → a → b) (k : ℕ) (l : List a) :
    (mapIdxGo f k l).length = l.length := by
  induction l generalizing k with
  | nil => rfl
  | cons x rest ih => simp [mapIdxGo, ih]

theorem markRows_get? (p : ℕ → Bool) (tg : Flag) (rows : List WRow) (j : ℕ) :
    (markRows p tg rows).get? j =
      (rows.get? j).map (fun r => if p j then addFlagRow tg r else r) := by
  simp only [markRows, mapIdxGo_get?, Nat.zero_add]

theorem markRows_noop (p : ℕ → Bool) (tg : Flag) (rows : List WRow)
    (h : ∀ i, p i = false) : markRows p tg rows = rows := by
  apply List.ext
  intro j
  rw [markRows_get?, h j]
  cases rows.get? j <;> simp

theorem markTs_get? (ts : List ℕ) (tg : Flag) (rows : List WRow) (j : ℕ) :
    (markTs ts tg rows).get? j =
      (rows.get? j).map (fun r => if r.t ∈ ts then addFlagRow tg r else r) := by
  simp [markTs, List.get?_map]

theorem markTs_nil (tg : Flag) (rows : List WRow) : markTs [] tg rows = rows := by
  simp [markTs]

theorem mem_addFlag (f tg : Flag) (l : List Flag) :
    f ∈ addFlag tg l ↔ f ∈ l ∨ f = tg := by
  unfold addFlag
  split
  · constructor
    · exact fun h => Or.inl h
    · rintro (h | rfl)
      · exact h
      · assumption
  · simp

theorem qf_addFlagRow (tg : Flag) (r : WRow) :
    (addFlagRow tg r).qf = r.qf.map (addFlag tg) := rfl

theorem hasFlag_markRows (p : ℕ → Bool) (tg f : Flag) (rows : List WRow) (i : ℕ) :
    hasFlag f (markRows p tg rows) i ↔
      hasFlag f rows i ∨ (p i = true ∧ f = tg ∧ ∃ l, qfF rows i = some l) := by
  unfold hasFlag qfF
  rw [markRows_get?]
  cases hr : rows.get? i with
  | none => simp
  | some r =>
    cases hp : p i with
    | false => simp
    | true =>
      cases hq : r.qf with
      | none => simp [addFlagRow, hq]
      | some l => simp [addFlagRow, hq, mem_addFlag, or_and_right]

theorem hasFlag_markRows_ne (p : ℕ → Bool) (tg f : Flag) (rows : List WRow) (i : ℕ)
    (h : f ≠ tg) : hasFlag f (markRows p tg rows) i ↔ hasFlag f rows i := by
  rw [hasFlag_markRows]
  simp [h]

theorem hasFlag_markTs (ts : List ℕ) (tg f : Flag) (rows : List WRow) (i : ℕ) :
    hasFlag f (markTs ts tg rows) i ↔
      hasFlag f rows i ∨
        (((rows.get? i).map WRow.t).getD 0 ∈ ts ∧ f = tg ∧ ∃ l, qfF rows i = some l) := by
  unfold hasFlag qfF
  rw [markTs_get?]
  cases hr : rows.get? i with
  | none => simp
  | some r =>
    by_cases ht : r.t ∈ ts
    · cases hq : r.qf with
      | none => simp [addFlagRow, hq, ht]
      | some l => simp [addFlagRow, hq, ht, mem_addFlag, or_and_right]
    · simp [ht]

theorem hasFlag_markTs_ne (ts : List ℕ) (tg f : Flag) (rows : List WRow) (i : ℕ)
    (h : f ≠ tg) : hasFlag f (markTs ts tg rows) i ↔ hasFlag f rows i := by
  rw [hasFlag_markTs]
  simp [h]

/-! ### Claim theorems -/

/-- C8 (amended): the constructor raises `FormatError` exactly when the
input is not a DataFrame; a DataFrame with no columns (whose primary
variable cannot be identified) instead fails with an `IndexError` from
`data.keys()[0]`, and any frame with at least one column is accepted. -/
theorem c8_format_error_iff_not_frame (inp : Option DFrame) (sat dep : Option ℚ) :
    (initIface inp sat dep = .error .formatError ↔ inp = none) ∧
    (∀ df, inp = some df → df.cols = [] →
      initIface inp sat dep = .error .indexError) ∧
    (∀ df c cs, inp = some df → df.cols = c :: cs →
      ∃ st, initIface inp sat dep = .ok st) := by
  refine ⟨?_, ?_, ?_⟩
  · cases inp with
    | none => simp [initIface]
    | some df =>
      apply iff_of_false ?_ (by simp)
      simp only [initIface]
      by_cases hm : "soil_moisture" ∈ df.cols
      · rw [if_pos hm]
        simp
      · rw [if_neg hm]
        cases hc : df.cols with
        | nil => simp
        | cons c cs => simp
  · rintro df rfl hc
    have hm : "soil_moisture" ∉ df.cols := by rw [hc]; simp
    simp only [initIface]
    rw [if_neg hm, hc]
  · rintro df c cs rfl hc
    simp only [initIface]
    by_cases hm : "soil_moisture" ∈ df.cols
    · rw [if_pos hm]
      exact ⟨_, rfl⟩
    · rw [if_neg hm, hc]
      exact ⟨_, rfl⟩

/-- C7 (amended): for a supplied nonzero saturation point `S`, `flag_C03`
adds C03 exactly to the records with soil moisture strictly above `S`
(among records that carry a qflag set); when the saturation point is
absent — or zero, which Python truthiness treats the same way — the state
is returned unchanged. -/
theorem c7_sat_point_amended (s : IState) (i : ℕ) :
    (∀ q s2, s.sat_point = some q → q ≠ 0 → "soil_moisture" ∈ s.cols →
      flag_C03 s = .ok s2 →
      (hasFlag .C03 s2.rows i ↔
        hasFlag .C03 s.rows i ∨
          (optGt (smF s.rows i) (some q) = true ∧ ∃ l, qfF s.rows i = some l))) ∧
    (s.sat_point = none → flag_C03 s = .ok s) ∧
    (s.sat_point = some 0 → flag_C03 s = .ok s) := by
  refine ⟨?_, ?_, ?_⟩
  · intro q s2 hq h0 hc hrun
    unfold flag_C03 at hrun
    rw [hq] at hrun
    simp only [h0, if_neg, if_pos hc, ite_false] at hrun
    have hs2 : s2.rows = markRows (fun j => optGt (smF s.rows j) (some q)) .C03 s.rows := by
      cases hrun
      rfl
    rw [hs2, hasFlag_markRows]
    simp
  · intro h
    unfold flag_C03
    rw [h]
  · intro h
    unfold flag_C03
    rw [h]
    simp

/-- C5 (amended): the first ratio criterion of the spike detector is
`eq4[i] = round(x[i] / x[i-1], 3)` — the ratio of consecutive samples, not
`x[i] / x[i-2]` — and the spike condition's first disjunct tests it
against the bounds `> 1.15` or `< 0.85` (or the two-hour-peak signal). -/
theorem c5_eq4_ratio_amended (x d2 : ℕ → Option ℚ) (n i : ℕ) (a b : ℚ)
    (hi : 1 ≤ i) (ha : x i = some a) (hb : x (i - 1) = some b) (hb0 : b ≠ 0) :
    eq4F x i = XV.num (roundQ 3 (a / b)) ∧
    (spikeF x d2 n i = true →
      ((XV.ltB (XV.num (23/20)) (eq4F x i) || XV.ltB (eq4F x i) (XV.num (17/20))) ||
        spike2hF x n i) = true) := by
  have h4 : eq4F x i = XV.num (roundQ 3 (a / b)) := by
    unfold eq4F
    rw [if_neg (by omega), ha, hb]
    simp [XV.ofO, XV.div, hb0, xvRound]
  refine ⟨h4, ?_⟩
  intro hs
  unfold spikeF at hs
  simp only [Bool.and_eq_true] at hs
  exact hs.1.1.1

/-- Rows reached through `qfF`/`smF` are members of the row list. -/
theorem qfF_some_of_base (s : IState) (j : ℕ)
    (hq : ∀ r ∈ s.rows, r.qf ≠ none)
    (hx : ∃ v, smF s.rows j = some v) : ∃ l, qfF s.rows j = some l := by
  obtain ⟨v, hv⟩ := hx
  unfold smF at hv
  unfold qfF
  cases hr : s.rows.get? j with
  | none => rw [hr] at hv; simp at hv
  | some r =>
    simp only [Option.some_bind] at hv ⊢
    cases hqr : r.qf with
    | none => exact absurd hqr (hq r (List.get?_mem hr))
    | some l => exact ⟨l, rfl⟩

/-- A present `absolute_change` cell forces a present soil-moisture cell. -/
theorem acF_some_sm_some (x : ℕ → Option ℚ) (j : ℕ) (w : ℚ)
    (hw : acF x j = some w) : ∃ v, x j = some v := by
  unfold acF at hw
  split at hw
  · exact absurd hw (by simp)
  · unfold optSub at hw
    cases hx : x j with
    | none => rw [hx] at hw; simp at hw
    | some v => exact ⟨v, rfl⟩

/-- The base break condition of `flag_D07` only holds at positions whose
`absolute_change` is a number, hence whose soil-moisture cell is present. -/
theorem d07base_sm_some (x d1 d2 : ℕ → Option ℚ) (j : ℕ)
    (hb : d07base x d1 d2 j = true) : ∃ v, x j = some v := by
  unfold d07base at hb
  simp only [Bool.and_eq_true] at hb
  have h2 := hb.1.1.1.1.1.2
  cases hw : acF x j with
  | none => rw [hw] at h2; simp [optGt] at h2
  | some w => exact acF_some_sm_some x j w hw

/-- The drop-to-zero condition of `flag_D07` only holds where soil
moisture is present. -/
theorem d07zero_sm_some (x : ℕ → Option ℚ) (j : ℕ)
    (hz : d07zero x j = true) : ∃ v, x j = some v := by
  unfold d07zero at hz
  simp only [Bool.and_eq_true] at hz
  have h1 := hz.1
  cases hw : acF x j with
  | none => rw [hw] at h1; simp [optGt] at h1
  | some w => exact acF_some_sm_some x j w hw

/-- Rows that all satisfy a flag-free qflag invariant admit no such flag
at any position. -/
theorem not_hasFlag_of_clean (rows : List WRow) (f : Flag) (i : ℕ)
    (h : ∀ r ∈ rows, ∀ l, r.qf = some l → f ∉ l) : ¬ hasFlag f rows i := by
  rintro ⟨l, hl, hm⟩
  unfold qfF at hl
  cases hr : rows.get? i with
  | none => rw [hr] at hl; simp at hl
  | some r =>
    rw [hr] at hl
    simp only [Option.some_bind] at hl
    exact h r (List.get?_mem hr) l hl hm

/-- Position-wise someness of the qflag cell is preserved by marking. -/
theorem qfF_markRows_isSome (p : ℕ → Bool) (tg : Flag) (rows : List WRow) (i : ℕ) :
    (∃ l, qfF (markRows p tg rows) i = some l) ↔ (∃ l, qfF rows i = some l) := by
  unfold qfF
  rw [markRows_get?]
  cases hr : rows.get? i with
  | none => simp
  | some r =>
    cases hp : p i with
    | false => simp
    | true =>
      cases hqr : r.qf with
      | none => simp [addFlagRow, hqr]
      | some l => simp [addFlagRow, hqr]

/-- The third criterion of the base break condition: soil moisture not
equal to zero (true for a missing value, as in pandas). -/
theorem d07base_neq0 (x d1 d2 : ℕ → Option ℚ) (j : ℕ)
    (hb : d07base x d1 d2 j = true) : neq0 (x j) = true := by
  unfold d07base at hb
  simp only [Bool.and_eq_true] at hb
  exact hb.1.1.1.1.2

/-- C3: after the break detector, D07 is present exactly at the drop
indices (base condition with negative first derivative, plus the
unconditional drops to zero), D08 exactly at the jump indices (base
condition with positive first derivative), and no record carries both,
provided no record carried either flag before the call. -/
theorem c3_d07_d08_exclusive (s s2 : IState) (i : ℕ)
    (hq : ∀ r ∈ s.rows, r.qf ≠ none)
    (hclean : ∀ r ∈ s.rows, ∀ l, r.qf = some l → Flag.D07 ∉ l ∧ Flag.D08 ∉ l)
    (hrun : flag_D07 s = .ok s2) :
    (hasFlag .D07 s2.rows i ↔
      d07negC (smF s.rows) (d1F s.rows) (d2F s.rows) i = true) ∧
    (hasFlag .D08 s2.rows i ↔
      d07posC (smF s.rows) (d1F s.rows) (d2F s.rows) i = true) ∧
    ¬(hasFlag .D07 s2.rows i ∧ hasFlag .D08 s2.rows i) := by
  unfold flag_D07 at hrun
  split at hrun
  · simp at hrun
  split at hrun
  · simp at hrun
  split at hrun
  · simp at hrun
  injection hrun with hok
  subst hok
  have h7old := not_hasFlag_of_clean s.rows .D07 i (fun r hr l hl => (hclean r hr l hl).1)
  have h8old := not_hasFlag_of_clean s.rows .D08 i (fun r hr l hl => (hclean r hr l hl).2)
  have hnegex : d07negC (smF s.rows) (d1F s.rows) (d2F s.rows) i = true →
      ∃ l, qfF s.rows i = some l := by
    intro hc
    unfold d07negC at hc
    simp only [Bool.or_eq_true, Bool.and_eq_true] at hc
    apply qfF_some_of_base s i hq
    rcases hc with ⟨hb, _⟩ | hz
    · exact d07base_sm_some _ _ _ i hb
    · exact d07zero_sm_some _ i hz
  have hposex : d07posC (smF s.rows) (d1F s.rows) (d2F s.rows) i = true →
      ∃ l, qfF s.rows i = some l := by
    intro hc
    unfold d07posC at hc
    simp only [Bool.and_eq_true] at hc
    exact qfF_some_of_base s i hq (d07base_sm_some _ _ _ i hc.1)
  have e7 : hasFlag .D07
      (markRows (d07posC (smF s.rows) (d1F s.rows) (d2F s.rows)) .D08
        (markRows (d07negC (smF s.rows) (d1F s.rows) (d2F s.rows)) .D07 s.rows)) i ↔
      d07negC (smF s.rows) (d1F s.rows) (d2F s.rows) i = true := by
    rw [hasFlag_markRows_ne _ _ _ _ _ (by decide : Flag.D07 ≠ Flag.D08),
      hasFlag_markRows]
    constructor
    · rintro (h | ⟨hc, _, _⟩)
      · exact absurd h h7old
      · exact hc
    · intro hc
      exact Or.inr ⟨hc, rfl, hnegex hc⟩
  have e8 : hasFlag .D08
      (markRows (d07posC (smF s.rows) (d1F s.rows) (d2F s.rows)) .D08
        (markRows (d07negC (smF s.rows) (d1F s.rows) (d2F s.rows)) .D07 s.rows)) i ↔
      d07posC (smF s.rows) (d1F s.rows) (d2F s.rows) i = true := by
    rw [hasFlag_markRows]
    rw [hasFlag_markRows_ne _ _ _ _ _ (by decide : Flag.D08 ≠ Flag.D07)]
    constructor
    · rintro (h | ⟨hc, _, _⟩)
      · exact absurd h h8old
      · exact hc
    · intro hc
      exact Or.inr ⟨hc, rfl, (qfF_markRows_isSome _ _ _ _).mpr (hposex hc)⟩
  refine ⟨e7, e8, ?_⟩
  rintro ⟨h7, h8⟩
  have hc7 := e7.mp h7
  have hc8 := e8.mp h8
  unfold d07negC at hc7
  unfold d07posC at hc8
  simp only [Bool.or_eq_true, Bool.and_eq_true] at hc7 hc8
  rcases hc7 with ⟨_, hlt⟩ | hz
  · cases hd : d1F s.rows i with
    | none => rw [hd] at hlt; simp [optLt] at hlt
    | some v =>
      rw [hd] at hlt
      have hgt := hc8.2
      rw [hd] at hgt
      simp only [optLt, optGt, decide_eq_true_eq] at hlt hgt
      linarith
  · have hb0 := d07base_neq0 _ _ _ i hc8.1
    unfold d07zero at hz
    simp only [Bool.and_eq_true] at hz
    have hz2 := hz.2
    cases hx : smF s.rows i with
    | none => rw [hx] at hz2; simp [optEqV] at hz2
    | some v =>
      rw [hx] at hz2
      rw [hx] at hb0
      simp only [optEqV, decide_eq_true_eq] at hz2
      subst hz2
      simp [neq0] at hb0

/-- A two-row soil-moisture state used to witness the break-detector
theorem. -/
def exC3st : IState := mkState (smDF [some 1, some 3]) "soil_moisture" none none

/-- The state `flag_D07` returns on `exC3st` after the derivatives have
been attached: the break columns are registered and no record is
flagged. -/
def exC3out : IState :=
  { cols := ["soil_moisture", "qflag", "deriv1", "deriv2", "absolute_change",
      "eq7", "eq8", "eq9", "eq9a", "eq_new2"],
    dtIndex := true, varName := "soil_moisture", sat_point := none, depth_from := none,
    rows := [
      { t := 0, sm := some 1, pv := some 1, stv := none, atv := none, gstv := none,
        prec := none, gprec := none, hsm := none, d1 := some 1, d2 := some 2,
        qf := some [] },
      { t := 1, sm := some 3, pv := some 3, stv := none, atv := none, gstv := none,
        prec := none, gprec := none, hsm := none, d1 := some 1, d2 := some (-2),
        qf := some [] }] }

/-- Witness for C3: the break detector applied to a concrete two-row
state, at record 1. -/
theorem c3_witness :
    flag_D07 (apply_savgol exC3st) = Except.ok exC3out ∧
    ¬(hasFlag .D07 exC3out.rows 1 ∧ hasFlag .D08 exC3out.rows 1) := by
  have hq : ∀ r ∈ (apply_savgol exC3st).rows, r.qf ≠ none := by decide
  have hclean : ∀ r ∈ (apply_savgol exC3st).rows, ∀ l, r.qf = some l →
      Flag.D07 ∉ l ∧ Flag.D08 ∉ l := by
    intro r hr l hl
    fin_cases hr <;> (simp [mkWRow] at hl; subst hl; exact ⟨by simp, by simp⟩)
  have hrun : flag_D07 (apply_savgol exC3st) = Except.ok exC3out := by decide
  exact ⟨hrun, (c3_d07_d08_exclusive _ _ 1 hq hclean hrun).2.2⟩

/-- Witness for C5: the amended `eq4` characterization applied to the
concrete series `[1, 2, 4]` at index 2. -/
theorem c5_witness :
    ((1:ℕ) ≤ 2 ∧ exC5x 2 = some 4 ∧ exC5x 1 = some 2 ∧ (2:ℚ) ≠ 0) ∧
    (eq4F exC5x 2 = XV.num (roundQ 3 ((4:ℚ) / 2)) ∧
      (spikeF exC5x (fun _ => none) 3 2 = true →
        ((XV.ltB (XV.num (23/20)) (eq4F exC5x 2) ||
          XV.ltB (eq4F exC5x 2) (XV.num (17/20))) || spike2hF exC5x 3 2) = true)) := by
  refine ⟨⟨by decide, by decide, by decide, by decide⟩, ?_⟩
  exact c5_eq4_ratio_amended exC5x (fun _ => none) 3 2 4 2 (by decide) (by decide)
    (by decide) (by decide)

/-- Sample variance is nonnegative. -/
theorem varQ_nonneg (l : List ℚ) : 0 ≤ varQ l := by
  unfold varQ
  apply div_nonneg
  · apply List.sum_nonneg
    intro a ha
    obtain ⟨v, _, rfl⟩ := List.mem_map.mp ha
    positivity
  · positivity

/-- Values produced by the rolling variance are nonnegative. -/
theorem rollVar_nonneg (w m : ℕ) (x : ℕ → Option ℚ) (i : ℕ) (v : ℚ)
    (h : rollVar w m x i = some v) : 0 ≤ v := by
  simp only [rollVar] at h
  split at h
  · cases h
    exact varQ_nonneg _
  · exact absurd h (by simp)

/-- Over the reals, `2·√v < r` iff `r` is positive and `r² > 4·v`. -/
theorem two_sqrt_lt_iff (v r : ℝ) (hv : 0 ≤ v) :
    2 * Real.sqrt v < r ↔ 0 < r ∧ 4 * v < r ^ 2 := by
  have hsq : Real.sqrt (4 * v) = 2 * Real.sqrt v := by
    rw [show (4 : ℝ) * v = 2 ^ 2 * v by ring, Real.sqrt_mul (by positivity),
      Real.sqrt_sq (by norm_num)]
  constructor
  · intro h
    have hr : 0 < r := lt_of_le_of_lt (by positivity) h
    rw [← hsq] at h
    exact ⟨hr, (Real.sqrt_lt' hr).mp h⟩
  · rintro ⟨hr, h4⟩
    rw [← hsq]
    exact (Real.sqrt_lt' hr).mpr h4

/-- The `gtTwiceStd` encoding agrees with the real-number comparison
`rise > 2·√var`. -/
theorem gtTwiceStd_iff_sqrt (r v : ℚ) (hv : 0 ≤ v) :
    gtTwiceStd (some r) (some v) = true ↔ 2 * Real.sqrt (v : ℝ) < (r : ℝ) := by
  unfold gtTwiceStd
  rw [decide_eq_true_iff]
  rw [two_sqrt_lt_iff _ _ (by exact_mod_cast hv)]
  constructor
  · rintro ⟨h1, h2⟩
    constructor
    · exact_mod_cast h1
    · exact_mod_cast h2
  · rintro ⟨h1, h2⟩
    constructor
    · exact_mod_cast h1
    · exact_mod_cast h2

/-- C6: with a precipitation column present and a sensor depth below
0.1 m (or unspecified), `flag_D04` adds D04 exactly where the one-hour
rise is strictly positive, the 24-hour rise strictly exceeds twice the
25-sample rolling standard deviation, and the rounded 24-hour
precipitation total is strictly below the minimum-precipitation
threshold; a 24-hour rise exactly equal to twice the standard deviation
never triggers the flag, and a depth of at least 0.1 m disables the
detector entirely. -/
theorem c6_d04_condition (s s2 : IState) (i : ℕ) (v r : ℚ)
    (hP : "precipitation" ∈ s.cols) (hSM : "soil_moisture" ∈ s.cols)
    (hrun : flag_D04 s = .ok s2)
    (hv : rollVar 25 1 (smF s.rows) i = some v)
    (hr : diffF 24 (smF s.rows) i = some r) :
    ((s.depth_from = none ∨ ∃ d, s.depth_from = some d ∧ d < 1/10) →
      ((hasFlag .D04 s2.rows i ↔
        hasFlag .D04 s.rows i ∨
          (optGt (diffF 1 (smF s.rows) i) (some 0) = true ∧
            2 * Real.sqrt (v : ℝ) < (r : ℝ) ∧
            optLt (roundO 1 (rollSum 24 1 (precF s.rows) i))
              (some (minPrec s.depth_from)) = true ∧
            ∃ l, qfF s.rows i = some l)) ∧
        ((r : ℝ) = 2 * Real.sqrt (v : ℝ) →
          (hasFlag .D04 s2.rows i ↔ hasFlag .D04 s.rows i)))) ∧
    (∀ d, s.depth_from = some d → 1/10 ≤ d → flag_D04 s = .ok s) := by
  have hv0 : 0 ≤ v := rollVar_nonneg _ _ _ _ _ hv
  constructor
  · intro hdep
    have hcore : flag_D04 s = flagD04core s (minPrec s.depth_from) := by
      unfold flag_D04
      rw [if_pos hP]
      rcases hdep with hd | ⟨d, hd, hlt⟩
      · rw [hd]
      · rw [hd]
        exact if_neg (not_le.mpr hlt)
    rw [hcore] at hrun
    unfold flagD04core at hrun
    rw [if_pos hSM] at hrun
    injection hrun with hok
    subst hok
    have hchar : hasFlag .D04 (markRows (d04cond s.rows (minPrec s.depth_from)) .D04 s.rows) i ↔
        hasFlag .D04 s.rows i ∨
          (optGt (diffF 1 (smF s.rows) i) (some 0) = true ∧
            2 * Real.sqrt (v : ℝ) < (r : ℝ) ∧
            optLt (roundO 1 (rollSum 24 1 (precF s.rows) i))
              (some (minPrec s.depth_from)) = true ∧
            ∃ l, qfF s.rows i = some l) := by
      rw [hasFlag_markRows]
      have hcnd : d04cond s.rows (minPrec s.depth_from) i = true ↔
          (optGt (diffF 1 (smF s.rows) i) (some 0) = true ∧
            2 * Real.sqrt (v : ℝ) < (r : ℝ) ∧
            optLt (roundO 1 (rollSum 24 1 (precF s.rows) i))
              (some (minPrec s.depth_from)) = true) := by
        simp only [d04cond]
        rw [hr, hv]
        simp only [Bool.and_eq_true, gtTwiceStd_iff_sqrt r v hv0]
        tauto
      constructor
      · rintro (h | ⟨hc, _, hl⟩)
        · exact Or.inl h
        · rcases hcnd.mp hc with ⟨h1, h2, h3⟩
          exact Or.inr ⟨h1, h2, h3, hl⟩
      · rintro (h | ⟨h1, h2, h3, hl⟩)
        · exact Or.inl h
        · exact Or.inr ⟨hcnd.mpr ⟨h1, h2, h3⟩, rfl, hl⟩
    refine ⟨hchar, ?_⟩
    intro heq
    rw [hchar]
    constructor
    · rintro (h | ⟨_, h2, _⟩)
      · exact h
      · rw [heq] at h2
        exact absurd h2 (lt_irrefl _)
    · exact Or.inl
  · intro d hd hge
    unfold flag_D04
    rw [if_pos hP, hd]
    exact if_pos hge

/-- A 25-row frame with soil moisture constantly zero until a 10-unit
jump at the last hour, and zero precipitation throughout. -/
def exC6df : DFrame :=
  { cols := ["soil_moisture", "precipitation"], dtIndex := true,
    rows := (List.range 25).map (fun i =>
      { t := i, val := fun c =>
        if c = "soil_moisture" then (if i = 24 then some 10 else some 0)
        else if c = "precipitation" then some 0 else none }) }

/-- The engine state built from `exC6df`. -/
def exC6st : IState := mkState exC6df "soil_moisture" none none

/-- The state `flag_D04` returns on `exC6st`. -/
def exC6out : IState :=
  { exC6st with
    cols := addCols ["total_precipitation", "std_x2", "rise24h", "rise1h"] exC6st.cols,
    rows := markRows (d04cond exC6st.rows (minPrec none)) .D04 exC6st.rows }

/-- Witness for C6: at hour 24 of `exC6st` the 24-hour rise is 10, the
25-sample variance is 4 (standard deviation 2), the precipitation total is
0, and D04 is indeed added. -/
theorem c6_witness :
    ("precipitation" ∈ exC6st.cols ∧ "soil_moisture" ∈ exC6st.cols ∧
      flag_D04 exC6st = Except.ok exC6out ∧
      rollVar 25 1 (smF exC6st.rows) 24 = some 4 ∧
      diffF 24 (smF exC6st.rows) 24 = some 10 ∧
      qfF exC6out.rows 24 = some [Flag.D04]) ∧
    (((exC6st.depth_from = none ∨ ∃ d, exC6st.depth_from = some d ∧ d < 1/10) →
      ((hasFlag .D04 exC6out.rows 24 ↔
        hasFlag .D04 exC6st.rows 24 ∨
          (optGt (diffF 1 (smF exC6st.rows) 24) (some 0) = true ∧
            2 * Real.sqrt ((4 : ℚ) : ℝ) < ((10 : ℚ) : ℝ) ∧
            optLt (roundO 1 (rollSum 24 1 (precF exC6st.rows) 24))
              (some (minPrec exC6st.depth_from)) = true ∧
            ∃ l, qfF exC6st.rows 24 = some l)) ∧
        (((10 : ℚ) : ℝ) = 2 * Real.sqrt ((4 : ℚ) : ℝ) →
          (hasFlag .D04 exC6out.rows 24 ↔ hasFlag .D04 exC6st.rows 24)))) ∧
    (∀ d, exC6st.depth_from = some d → 1/10 ≤ d → flag_D04 exC6st = .ok exC6st)) := by
  have h := c6_d04_condition exC6st exC6out 24 4 10 (by decide) (by decide)
    (by decide) (by decide) (by decide)
  exact ⟨⟨by decide, by decide, by decide, by decide, by decide, by decide⟩, h⟩

/-- Inversion of a successful `Except.bind`. -/
theorem bind_ok {A B : Type} {m : Except PyErr A} {f : A → Except PyErr B} {b : B}
    (h : Except.bind m f = .ok b) : ∃ a, m = .ok a ∧ f a = .ok b := by
  cases m with
  | error e => simp [Except.bind] at h
  | ok a => exact ⟨a, rfl, by simpa [Except.bind] using h⟩

/-- Inversion of a successful `run`: every detector returned `.ok`, and
the returned frame carries the keys recorded at entry together with the
rows left by `flag_G`. -/
theorem run_ok_inv (s0 : IState) (rsat rdep : Option ℚ) (out : QFrame)
    (h : run s0 rsat rdep = .ok out) :
    ∃ s3 s4 s5 s6 s7 s8 s9 s10 s11 s12 s13 s14 s15,
      flag_C01 (if ({ s0 with
          sat_point := if truthy s0.sat_point then s0.sat_point else rsat,
          depth_from := if truthy s0.depth_from then s0.depth_from else rdep
          : IState }).varName = "soil_moisture"
        then apply_savgol { s0 with
          sat_point := if truthy s0.sat_point then s0.sat_point else rsat,
          depth_from := if truthy s0.depth_from then s0.depth_from else rdep }
        else { s0 with
          sat_point := if truthy s0.sat_point then s0.sat_point else rsat,
          depth_from := if truthy s0.depth_from then s0.depth_from else rdep }) = .ok s3 ∧
      flag_C02 s3 = .ok s4 ∧ flag_C03 s4 = .ok s5 ∧
      flag_D01 s5 = .ok s6 ∧ flag_D02 s6 = .ok s7 ∧ flag_D03 s7 = .ok s8 ∧
      flag_D04 s8 = .ok s9 ∧ flag_D05 s9 = .ok s10 ∧ flag_D06 s10 = .ok s11 ∧
      flag_D07 s11 = .ok s12 ∧ flag_D09 s12 = .ok s13 ∧ flag_D10 s13 = .ok s14 ∧
      flag_G s14 = .ok s15 ∧ out = ⟨s0.cols, s15.rows⟩ := by
  simp only [run] at h
  obtain ⟨s3, h3, h⟩ := bind_ok h
  obtain ⟨s4, h4, h⟩ := bind_ok h
  obtain ⟨s5, h5, h⟩ := bind_ok h
  obtain ⟨s6, h6, h⟩ := bind_ok h
  obtain ⟨s7, h7, h⟩ := bind_ok h
  obtain ⟨s8, h8, h⟩ := bind_ok h
  obtain ⟨s9, h9, h⟩ := bind_ok h
  obtain ⟨s10, h10, h⟩ := bind_ok h
  obtain ⟨s11, h11, h⟩ := bind_ok h
  obtain ⟨s12, h12, h⟩ := bind_ok h
  obtain ⟨s13, h13, h⟩ := bind_ok h
  obtain ⟨s14, h14, h⟩ := bind_ok h
  obtain ⟨s15, h15, h⟩ := bind_ok h
  injection h with hout
  exact ⟨s3, s4, s5, s6, s7, s8, s9, s10, s11, s12, s13, s14, s15,
    h3, h4, h5, h6, h7, h8, h9, h10, h11, h12, h13, h14, h15, hout.symm⟩

/-- C10: the frame returned by `run` carries exactly the columns recorded
at the moment `run` was called — the input columns plus `qflag`, in that
order — and none of the intermediate columns created during the run
appear in it, even though they are added to the underlying frame in
place. -/
theorem c10_returned_columns (df : DFrame) (sat dep rsat rdep : Option ℚ)
    (out : QFrame) (hq : "qflag" ∉ df.cols)
    (h : runAll (some df) sat dep rsat rdep = .ok out) :
    out.cols = df.cols ++ ["qflag"] ∧
    (∀ c ∈ ["deriv1", "deriv2", "eq4", "eq5", "eq6", "eq_new1", "spike_2h", "spike",
        "total_precipitation", "std_x2", "rise24h", "rise1h",
        "gldas_total_precipitation", "gl_std_x2", "gl_rise24h", "gl_rise1h",
        "absolute_change", "eq7", "eq8", "eq9", "eq9a", "eq_new2",
        "rel_var", "event", "plateau", "end",
        "VAR", "VAR_grouped", "maximum", "minimum", "VAR_rise_drop"],
      c ∉ df.cols → c ∉ out.cols) := by
  unfold runAll at h
  obtain ⟨st, hinit, hrun⟩ := bind_ok h
  obtain ⟨_, _, _, _, _, _, _, _, _, _, _, _, _,
    _, _, _, _, _, _, _, _, _, _, _, _, _, hout⟩ := run_ok_inv st rsat rdep out hrun
  have hcols : st.cols = df.cols ++ ["qflag"] := by
    simp only [initIface] at hinit
    by_cases hm : "soil_moisture" ∈ df.cols
    · rw [if_pos hm] at hinit
      injection hinit with he
      rw [← he]
      show (if "qflag" ∈ df.cols then df.cols else df.cols ++ ["qflag"]) =
        df.cols ++ ["qflag"]
      rw [if_neg hq]
    · rw [if_neg hm] at hinit
      cases hc : df.cols with
      | nil => rw [hc] at hinit; simp at hinit
      | cons c cs =>
        rw [hc] at hinit
        injection hinit with he
        rw [← he]
        show (if "qflag" ∈ df.cols then df.cols else df.cols ++ ["qflag"]) =
          c :: cs ++ ["qflag"]
        rw [if_neg hq, hc]
  have h1 : out.cols = df.cols ++ ["qflag"] := by rw [hout]; exact hcols
  refine ⟨h1, ?_⟩
  intro c hc hnc
  rw [h1]
  intro hmem
  rcases List.mem_append.mp hmem with hin | hin
  · exact hnc hin
  · have : c = "qflag" := by simpa using hin
    subst this
    exact absurd hc (by decide)

/-- The frame the full run returns on `exC1df` (the missing middle row is
gone). -/
def exC1out : QFrame :=
  { cols := ["soil_moisture", "qflag"],
    rows := [
      { t := 0, sm := some 5, pv := some 5, stv := none, atv := none, gstv := none,
        prec := none, gprec := none, hsm := none, d1 := none, d2 := none,
        qf := some [Flag.G] },
      { t := 2, sm := some 5, pv := some 5, stv := none, atv := none, gstv := none,
        prec := none, gprec := none, hsm := none, d1 := none, d2 := none,
        qf := some [Flag.G] }] }

/-- Witness for C10: a concrete full run returns exactly the input
columns plus `qflag` and none of the intermediate columns. -/
theorem c10_witness :
    ("qflag" ∉ exC1df.cols ∧
      runAll (some exC1df) none none none none = Except.ok exC1out) ∧
    (exC1out.cols = exC1df.cols ++ ["qflag"] ∧
      (∀ c ∈ ["deriv1", "deriv2", "eq4", "eq5", "eq6", "eq_new1", "spike_2h", "spike",
          "total_precipitation", "std_x2", "rise24h", "rise1h",
          "gldas_total_precipitation", "gl_std_x2", "gl_rise24h", "gl_rise1h",
          "absolute_change", "eq7", "eq8", "eq9", "eq9a", "eq_new2",
          "rel_var", "event", "plateau", "end",
          "VAR", "VAR_grouped", "maximum", "minimum", "VAR_rise_drop"],
        c ∉ exC1df.cols → c ∉ exC1out.cols)) := by
  have h := c10_returned_columns exC1df none none none none exC1out
    (by decide) (by decide)
  exact ⟨⟨by decide, by decide⟩, h⟩

/-- Invariant carried through the detector chain: no record's qflag set
mentions G, and a record with a NaN qflag cell also has missing soil
moisture. -/
def PreRows (rows : List WRow) : Prop :=
  (∀ r ∈ rows, ∀ l, r.qf = some l → Flag.G ∉ l) ∧
  (∀ r ∈ rows, r.qf = none → r.sm = none)

theorem mem_mapIdxGo {f : ℕ → a → b} {k : ℕ} {l : List a} {y : b}
    (h : y ∈ mapIdxGo f k l) : ∃ i x, x ∈ l ∧ y = f i x := by
  induction l generalizing k with
  | nil => simp [mapIdxGo] at h
  | cons x rest ih =>
    rcases List.mem_cons.mp h with hy | hy
    · exact ⟨k, x, List.mem_cons_self _ _, hy⟩
    · obtain ⟨i, x2, hx2, hy2⟩ := ih hy
      exact ⟨i, x2, List.mem_cons_of_mem _ hx2, hy2⟩

theorem pre_markRows (p : ℕ → Bool) (tg : Flag) (rows : List WRow)
    (htg : tg ≠ Flag.G) (hp : PreRows rows) : PreRows (markRows p tg rows) := by
  constructor
  · intro r hr l hl
    obtain ⟨i, x, hx, rfl⟩ := mem_mapIdxGo hr
    split at hl
    · rw [qf_addFlagRow] at hl
      cases hq : x.qf with
      | none => rw [hq] at hl; simp at hl
      | some l0 =>
        rw [hq] at hl
        simp only [Option.map_some'] at hl
        injection hl with hl
        subst hl
        intro hmem
        rcases (mem_addFlag _ _ _).mp hmem with hin | heq
        · exact hp.1 x hx l0 hq hin
        · exact htg heq.symm
    · exact hp.1 x hx l hl
  · intro r hr hq
    obtain ⟨i, x, hx, rfl⟩ := mem_mapIdxGo hr
    by_cases hpi : p i = true
    · rw [if_pos hpi] at hq ⊢
      rw [qf_addFlagRow] at hq
      cases hqx : x.qf with
      | none => exact hp.2 x hx hqx
      | some l0 => rw [hqx] at hq; simp at hq
    · rw [if_neg hpi] at hq ⊢
      exact hp.2 x hx hq

theorem pre_markTs (ts : List ℕ) (tg : Flag) (rows : List WRow)
    (htg : tg ≠ Flag.G) (hp : PreRows rows) : PreRows (markTs ts tg rows) := by
  constructor
  · intro r hr l hl
    obtain ⟨x, hx, rfl⟩ := List.mem_map.mp hr
    split at hl
    · rw [qf_addFlagRow] at hl
      cases hq : x.qf with
      | none => rw [hq] at hl; simp at hl
      | some l0 =>
        rw [hq] at hl
        simp only [Option.map_some'] at hl
        injection hl with hl
        subst hl
        intro hmem
        rcases (mem_addFlag _ _ _).mp hmem with hin | heq
        · exact hp.1 x hx l0 hq hin
        · exact htg heq.symm
    · exact hp.1 x hx l hl
  · intro r hr hq
    obtain ⟨x, hx, rfl⟩ := List.mem_map.mp hr
    by_cases hpi : x.t ∈ ts
    · rw [if_pos hpi] at hq ⊢
      rw [qf_addFlagRow] at hq
      cases hqx : x.qf with
      | none => exact hp.2 x hx hqx
      | some l0 => rw [hqx] at hq; simp at hq
    · rw [if_neg hpi] at hq ⊢
      exact hp.2 x hx hq

theorem pre_filter (q : WRow → Bool) (rows : List WRow) (hp : PreRows rows) :
    PreRows (rows.filter q) := by
  constructor
  · intro r hr
    exact hp.1 r (List.mem_of_mem_filter hr)
  · intro r hr
    exact hp.2 r (List.mem_of_mem_filter hr)

theorem pre_resampleH (rows : List WRow) (hp : PreRows rows) :
    PreRows (resampleH rows) := by
  cases hrows : rows with
  | nil => exact ⟨by simp [resampleH], by simp [resampleH]⟩
  | cons r0 rest =>
    rw [← hrows]
    have hmem : ∀ r2 ∈ resampleH rows, r2 ∈ rows ∨ r2.qf = none ∧ r2.sm = none := by
      intro r2 hr2
      rw [hrows] at hr2
      unfold resampleH at hr2
      obtain ⟨k, _, hk⟩ := List.mem_map.mp hr2
      cases hf : (r0 :: rest).find? (fun r => r.t = r0.t + k) with
      | some r =>
        rw [hf] at hk
        rw [hrows]
        exact Or.inl (hk ▸ List.mem_of_find?_eq_some hf)
      | none =>
        rw [hf] at hk
        exact Or.inr (by rw [← hk]; exact ⟨rfl, rfl⟩)
    constructor
    · intro r hr l hl
      rcases hmem r hr with hin | ⟨hq, _⟩
      · exact hp.1 r hin l hl
      · rw [hq] at hl; simp at hl
    · intro r hr hq
      rcases hmem r hr with hin | ⟨_, hs⟩
      · exact hp.2 r hin hq
      · exact hs

theorem pre_savgol (s : IState) (hp : PreRows s.rows) :
    PreRows (apply_savgol s).rows := by
  constructor
  · intro r hr l hl
    obtain ⟨i, x, hx, rfl⟩ := mem_mapIdxGo hr
    exact hp.1 x hx l hl
  · intro r hr hq
    obtain ⟨i, x, hx, rfl⟩ := mem_mapIdxGo hr
    exact hp.2 x hx hq

theorem pre_flag_C01 (s s2 : IState) (h : flag_C01 s = .ok s2)
    (hp : PreRows s.rows) : PreRows s2.rows := by
  unfold flag_C01 at h
  split at h
  · simp at h
  · injection h with h
    subst h
    exact pre_markRows _ _ _ (by decide) hp

theorem pre_flag_C02 (s s2 : IState) (h : flag_C02 s = .ok s2)
    (hp : PreRows s.rows) : PreRows s2.rows := by
  unfold flag_C02 at h
  split at h
  · simp at h
  · injection h with h
    subst h
    exact pre_markRows _ _ _ (by decide) hp

theorem pre_flag_C03 (s s2 : IState) (h : flag_C03 s = .ok s2)
    (hp : PreRows s.rows) : PreRows s2.rows := by
  unfold flag_C03 at h
  split at h
  · injection h with h
    subst h
    exact hp
  · split at h
    · injection h with h
      subst h
      exact hp
    · split at h
      · injection h with h
        subst h
        exact pre_markRows _ _ _ (by decide) hp
      · simp at h

theorem pre_flag_D01 (s s2 : IState) (h : flag_D01 s = .ok s2)
    (hp : PreRows s.rows) : PreRows s2.rows := by
  unfold flag_D01 at h
  split at h <;> (injection h with h; subst h)
  · exact pre_markRows _ _ _ (by decide) hp
  · exact hp

theorem pre_flag_D02 (s s2 : IState) (h : flag_D02 s = .ok s2)
    (hp : PreRows s.rows) : PreRows s2.rows := by
  unfold flag_D02 at h
  split at h <;> (injection h with h; subst h)
  · exact pre_markRows _ _ _ (by decide) hp
  · exact hp

theorem pre_flag_D03 (s s2 : IState) (h : flag_D03 s = .ok s2)
    (hp : PreRows s.rows) : PreRows s2.rows := by
  unfold flag_D03 at h
  split at h <;> (injection h with h; subst h)
  · exact pre_markRows _ _ _ (by decide) hp
  · exact hp

theorem pre_flagD04core (s s2 : IState) (minp : ℚ) (h : flagD04core s minp = .ok s2)
    (hp : PreRows s.rows) : PreRows s2.rows := by
  unfold flagD04core at h
  split at h
  · injection h with h
    subst h
    exact pre_markRows _ _ _ (by decide) hp
  · simp at h

theorem pre_flag_D04 (s s2 : IState) (h : flag_D04 s = .ok s2)
    (hp : PreRows s.rows) : PreRows s2.rows := by
  unfold flag_D04 at h
  split at h
  · split at h
    · split at h
      · injection h with h
        subst h
        exact hp
      · exact pre_flagD04core _ _ _ h hp
    · exact pre_flagD04core _ _ _ h hp
  · injection h with h
    subst h
    exact hp

theorem pre_flagD05core (s s2 : IState) (minp : ℚ) (h : flagD05core s minp = .ok s2)
    (hp : PreRows s.rows) : PreRows s2.rows := by
  unfold flagD05core at h
  split at h
  · injection h with h
    subst h
    exact pre_markRows _ _ _ (by decide) hp
  · simp at h

theorem pre_flag_D05 (s s2 : IState) (h : flag_D05 s = .ok s2)
    (hp : PreRows s.rows) : PreRows s2.rows := by
  unfold flag_D05 at h
  split at h
  · split at h
    · split at h
      · injection h with h
        subst h
        exact hp
      · exact pre_flagD05core _ _ _ h hp
    · exact pre_flagD05core _ _ _ h hp
  · injection h with h
    subst h
    exact hp

theorem pre_flag_D06 (s s2 : IState) (h : flag_D06 s = .ok s2)
    (hp : PreRows s.rows) : PreRows s2.rows := by
  unfold flag_D06 at h
  split at h
  · simp at h
  · split at h
    · simp at h
    · injection h with h
      subst h
      exact pre_markRows _ _ _ (by decide) hp

theorem pre_flag_D07 (s s2 : IState) (h : flag_D07 s = .ok s2)
    (hp : PreRows s.rows) : PreRows s2.rows := by
  unfold flag_D07 at h
  split at h
  · simp at h
  · split at h
    · simp at h
    · split at h
      · simp at h
      · injection h with h
        subst h
        exact pre_markRows _ _ _ (by decide)
          (pre_markRows _ _ _ (by decide) hp)

theorem pre_flag_D09 (s s2 : IState) (h : flag_D09 s = .ok s2)
    (hp : PreRows s.rows) : PreRows s2.rows := by
  simp only [flag_D09] at h
  split at h
  · simp at h
  · injection h with h
    subst h
    show PreRows (if s.dtIndex then _ else _)
    split
    · exact pre_resampleH _ (pre_markRows _ _ _ (by decide) (pre_filter _ _ hp))
    · exact pre_markRows _ _ _ (by decide) (pre_filter _ _ hp)

theorem pre_flag_D10 (s s2 : IState) (h : flag_D10 s = .ok s2)
    (hp : PreRows s.rows) : PreRows s2.rows := by
  simp only [flag_D10] at h
  split at h
  · simp at h
  · split at h
    · simp at h
    · injection h with h
      subst h
      exact pre_markTs _ _ _ (by decide) (pre_filter _ _ hp)

/-- After `flag_D10`, every remaining record has a present soil-moisture
cell (the detector drops the missing rows and never restores them). -/
theorem d10_sm_present (s s2 : IState) (h : flag_D10 s = .ok s2) :
    ∀ r ∈ s2.rows, r.sm ≠ none := by
  simp only [flag_D10] at h
  split at h
  · simp at h
  split at h
  · simp at h
  injection h with h
  subst h
  intro r hr
  obtain ⟨x, hx, rfl⟩ := List.mem_map.mp hr
  have hxs : x.sm.isSome := by
    have := (List.mem_filter.mp hx).2
    simpa using this
  have hxn : x.sm ≠ none := Option.isSome_iff_ne_none.mp hxs
  split
  · exact hxn
  · exact hxn

/-- Every record of a freshly constructed interface carries the empty
qflag set. -/
theorem init_qf_empty (inp : Option DFrame) (sat dep : Option ℚ) (st : IState)
    (h : initIface inp sat dep = .ok st) : ∀ r ∈ st.rows, r.qf = some [] := by
  cases inp with
  | none => simp [initIface] at h
  | some df =>
    simp only [initIface] at h
    split at h
    · injection h with h
      subst h
      intro r hr
      obtain ⟨x, _, rfl⟩ := List.mem_map.mp hr
      rfl
    · split at h
      · simp at h
      · injection h with h
        subst h
        intro r hr
        obtain ⟨x, _, rfl⟩ := List.mem_map.mp hr
        rfl

/-- C2: in the frame returned by a full run, every record carries a qflag
set, and G is in that set exactly when no other flag code is. -/
theorem c2_good_iff_no_other (inp : Option DFrame) (sat dep rsat rdep : Option ℚ)
    (out : QFrame) (h : runAll inp sat dep rsat rdep = .ok out) :
    ∀ r ∈ out.rows, ∃ l, r.qf = some l ∧ (Flag.G ∈ l ↔ ∀ f ∈ l, f = Flag.G) := by
  unfold runAll at h
  obtain ⟨st, hinit, hrun⟩ := bind_ok h
  obtain ⟨s3, s4, s5, s6, s7, s8, s9, s10, s11, s12, s13, s14, s15,
    h3, h4, h5, h6, h7, h8, h9, h10, h11, h12, h13, h14, h15, hout⟩ :=
    run_ok_inv st rsat rdep out hrun
  have hqe := init_qf_empty _ _ _ _ hinit
  have hpre : PreRows st.rows := by
    constructor
    · intro r hr l hl
      rw [hqe r hr] at hl
      injection hl with hl
      subst hl
      simp
    · intro r hr hq
      rw [hqe r hr] at hq
      simp at hq
  have p2 : ∀ s : IState, s.rows = st.rows →
      PreRows (if s.varName = "soil_moisture" then apply_savgol s else s).rows := by
    intro s hs
    split
    · apply pre_savgol
      rw [hs]
      exact hpre
    · rw [hs]
      exact hpre
  have p3 := pre_flag_C01 _ _ h3 (p2 _ rfl)
  have p4 := pre_flag_C02 _ _ h4 p3
  have p5 := pre_flag_C03 _ _ h5 p4
  have p6 := pre_flag_D01 _ _ h6 p5
  have p7 := pre_flag_D02 _ _ h7 p6
  have p8 := pre_flag_D03 _ _ h8 p7
  have p9 := pre_flag_D04 _ _ h9 p8
  have p10 := pre_flag_D05 _ _ h10 p9
  have p11 := pre_flag_D06 _ _ h11 p10
  have p12 := pre_flag_D07 _ _ h12 p11
  have p13 := pre_flag_D09 _ _ h13 p12
  have p14 := pre_flag_D10 _ _ h14 p13
  have hsm := d10_sm_present _ _ h14
  unfold flag_G at h15
  injection h15 with h15
  subst h15
  intro r hr
  rw [hout] at hr
  obtain ⟨x, hx, rfl⟩ := List.mem_map.mp hr
  have hxq : ∃ l, x.qf = some l := by
    cases hq : x.qf with
    | none => exact absurd (p14.2 x hx hq) (hsm x hx)
    | some l => exact ⟨l, rfl⟩
  obtain ⟨l, hl⟩ := hxq
  by_cases hle : x.qf = some []
  · rw [if_pos hle]
    refine ⟨[Flag.G], ?_, by simp⟩
    rw [qf_addFlagRow, hle]
    rfl
  · rw [if_neg hle]
    refine ⟨l, hl, ?_⟩
    have hG : Flag.G ∉ l := p14.1 x hx l hl
    have hne : l ≠ [] := by
      intro he
      rw [he] at hl
      exact hle hl
    apply iff_of_false hG
    intro hall
    cases l with
    | nil => exact hne rfl
    | cons f0 rest =>
      have hf0 : f0 = Flag.G := hall f0 (List.mem_cons_self _ _)
      apply hG
      rw [← hf0]
      exact List.mem_cons_self _ _

/-- A one-row soil-moisture frame used to witness the good-flag claim. -/
def exC2df : DFrame := smDF [some 5]

/-- The frame the full run returns on `exC2df`. -/
def exC2out : QFrame :=
  { cols := ["soil_moisture", "qflag"],
    rows := [
      { t := 0, sm := some 5, pv := some 5, stv := none, atv := none, gstv := none,
        prec := none, gprec := none, hsm := none, d1 := some 0, d2 := some 0,
        qf := some [Flag.G] }] }

/-- Witness for C2: a concrete full run, with the good-flag equivalence
read off its single record. -/
theorem c2_witness :
    runAll (some exC2df) none none none none = Except.ok exC2out ∧
    (∃ l, (exC2out.rows.getD 0 (blankRow 0)).qf = some l ∧
      (Flag.G ∈ l ↔ ∀ f ∈ l, f = Flag.G)) := by
  have h : runAll (some exC2df) none none none none = Except.ok exC2out := by decide
  refine ⟨h, ?_⟩
  have hm : exC2out.rows.getD 0 (blankRow 0) ∈ exC2out.rows := by decide
  exact c2_good_iff_no_other _ _ _ _ _ _ h _ hm

/-- A constant hourly soil-moisture series of length `n` and value `c`. -/
def constDF (n : ℕ) (c : ℚ) : DFrame := smDF (List.replicate n (some c))

/-- The working row of a constant series right after `__init__`. -/
def cRow (c : ℚ) (i : ℕ) : WRow :=
  { t := i, sm := some c, pv := some c, stv := none, atv := none, gstv := none,
    prec := none, gprec := none, hsm := none, d1 := none, d2 := none, qf := some [] }

/-- The working row of a constant series after `apply_savgol` (both
derivatives vanish). -/
def csRow (c : ℚ) (i : ℕ) : WRow := { cRow c i with d1 := some 0, d2 := some 0 }

/-- The engine state for a constant series after `__init__`. -/
def constState (n : ℕ) (c : ℚ) : IState :=
  { cols := ["soil_moisture", "qflag"], dtIndex := true, varName := "soil_moisture",
    sat_point := none, depth_from := none, rows := (List.range n).map (cRow c) }

/-- The engine state for a constant series after `apply_savgol`. -/
def constMid (n : ℕ) (c : ℚ) : IState :=
  { cols := ["soil_moisture", "qflag", "deriv1", "deriv2"], dtIndex := true,
    varName := "soil_moisture", sat_point := none, depth_from := none,
    rows := (List.range n).map (csRow c) }

theorem get?_range_map {b : Type} (g : ℕ → b) (n i : ℕ) :
    ((List.range n).map g).get? i = if i < n then some (g i) else none := by
  rw [List.get?_map]
  by_cases h : i < n
  · rw [List.get?_range h]
    simp [h]
  · rw [List.get?_eq_none.mpr (by simpa using not_lt.mp h)]
    simp [h]

theorem mapIdxGo_replicate {a b : Type} (f : ℕ → a → b) (k n : ℕ) (v : a) :
    mapIdxGo f k (List.replicate n v) = (List.range n).map (fun i => f (k + i) v) := by
  induction n generalizing k with
  | zero => simp [mapIdxGo]
  | succ n ih =>
    rw [List.replicate_succ, List.range_succ_eq_map, List.map_cons, List.map_map]
    simp only [mapIdxGo, Nat.add_zero]
    congr 1
    rw [ih (k + 1)]
    apply List.map_congr_left
    intro i _
    simp only [Function.comp_apply]
    congr 1
    omega

theorem mapIdxGo_range_map {b d : Type} (g : ℕ → b) (f : ℕ → b → d) (n : ℕ) :
    mapIdxGo f 0 ((List.range n).map g) = (List.range n).map (fun i => f i (g i)) := by
  apply List.ext
  intro j
  rw [mapIdxGo_get?, get?_range_map, get?_range_map]
  by_cases h : j < n <;> simp [h]

theorem smF_csRow (n : ℕ) (c : ℚ) (i : ℕ) :
    smF ((List.range n).map (csRow c)) i = if i < n then some c else none := by
  unfold smF
  rw [get?_range_map]
  by_cases h : i < n <;> simp [h, csRow, cRow]

theorem pvF_csRow (n : ℕ) (c : ℚ) (i : ℕ) :
    pvF ((List.range n).map (csRow c)) i = if i < n then some c else none := by
  unfold pvF
  rw [get?_range_map]
  by_cases h : i < n <;> simp [h, csRow, cRow]

theorem d1F_csRow (n : ℕ) (c : ℚ) (i : ℕ) :
    d1F ((List.range n).map (csRow c)) i = if i < n then some 0 else none := by
  unfold d1F
  rw [get?_range_map]
  by_cases h : i < n <;> simp [h, csRow, cRow]

theorem qfF_csRow (n : ℕ) (c : ℚ) (i : ℕ) :
    qfF ((List.range n).map (csRow c)) i = if i < n then some [] else none := by
  unfold qfF
  rw [get?_range_map]
  by_cases h : i < n <;> simp [h, csRow, cRow]

/-- Constructing the interface on a constant series yields `constState`. -/
theorem init_const (n : ℕ) (c : ℚ) :
    initIface (some (constDF n c)) none none = .ok (constState n c) := by
  simp only [initIface]
  rw [if_pos (by simp [constDF, smDF])]
  congr 1
  have hrows : ((constDF n c).rows).map (mkWRow "soil_moisture") =
      (List.range n).map (cRow c) := by
    unfold constDF smDF
    rw [mapIdxGo_replicate, List.map_map]
    apply List.map_congr_left
    intro i _
    simp [mkWRow, cRow, Function.comp]
  unfold mkState constState
  rw [hrows]
  simp [constDF, smDF]

theorem smF_cRow (n : ℕ) (c : ℚ) (i : ℕ) :
    smF ((List.range n).map (cRow c)) i = if i < n then some c else none := by
  unfold smF
  rw [get?_range_map]
  by_cases h : i < n <;> simp [h, cRow]

theorem nearestIdx_lt (n : ℕ) (h : 0 < n) (j : ℤ) : nearestIdx n j < n := by
  unfold nearestIdx
  split
  · exact h
  · split
    · omega
    · omega

/-- Applying the Savitzky-Golay filter to a constant series zeroes both
derivative columns. -/
theorem savgol_const (n : ℕ) (c : ℚ) (hn : 1 ≤ n) :
    apply_savgol (constState n c) = constMid n c := by
  have hpos : 0 < n := hn
  simp only [apply_savgol, constState, constMid, List.length_map, List.length_range]
  congr 1
  rw [mapIdxGo_range_map]
  apply List.map_congr_left
  intro i hi
  have hin : i < n := List.mem_range.mp hi
  have hxn : ∀ j : ℤ, smF ((List.range n).map (cRow c)) (nearestIdx n j) = some c := by
    intro j
    rw [smF_cRow]
    exact if_pos (nearestIdx_lt n hpos j)
  have hx : smF ((List.range n).map (cRow c)) i = some c := by
    rw [smF_cRow]
    exact if_pos hin
  simp only [hxn, hx]
  show ({ cRow c i with d1 := some ((c - c) / 2), d2 := some (c - 2 * c + c) } : WRow) =
    csRow c i
  have e1 : (c - c) / 2 = 0 := by ring
  have e2 : c - 2 * c + c = 0 := by ring
  rw [e1, e2]
  rfl

theorem flag_C01_const (s : IState) (n : ℕ) (c : ℚ) (hvar : s.varName = "soil_moisture")
    (hrows : s.rows = (List.range n).map (csRow c)) (hc : 0 ≤ c) :
    flag_C01 s = .ok s := by
  have hlb : low_boundary s.varName = some 0 := by rw [hvar]; rfl
  unfold flag_C01
  rw [hlb]
  show Except.ok ({ s with
    rows := markRows (fun i => optLt (pvF s.rows i) (some 0)) .C01 s.rows }) = Except.ok s
  have hcond : ∀ i, optLt (pvF s.rows i) (some 0) = false := by
    intro i
    rw [hrows, pvF_csRow]
    split
    · exact decide_eq_false (not_lt.mpr hc)
    · rfl
  rw [markRows_noop _ _ _ hcond]

theorem flag_C02_const (s : IState) (n : ℕ) (c : ℚ) (hvar : s.varName = "soil_moisture")
    (hrows : s.rows = (List.range n).map (csRow c)) (hc : c ≤ 60) :
    flag_C02 s = .ok s := by
  have hhb : hi_boundary s.varName = some 60 := by rw [hvar]; rfl
  unfold flag_C02
  rw [hhb]
  show Except.ok ({ s with
    rows := markRows (fun i => optGt (pvF s.rows i) (some 60)) .C02 s.rows }) = Except.ok s
  have hcond : ∀ i, optGt (pvF s.rows i) (some 60) = false := by
    intro i
    rw [hrows, pvF_csRow]
    split
    · exact decide_eq_false (not_lt.mpr hc)
    · rfl
  rw [markRows_noop _ _ _ hcond]

theorem flag_C03_none (s : IState) (hsat : s.sat_point = none) : flag_C03 s = .ok s := by
  unfold flag_C03
  rw [hsat]

theorem flag_D01_skip (s : IState) (h : "soil_temperature" ∉ s.cols) :
    flag_D01 s = .ok s := by
  unfold flag_D01
  rw [if_neg h]

theorem flag_D02_skip (s : IState) (h : "air_temperature" ∉ s.cols) :
    flag_D02 s = .ok s := by
  unfold flag_D02
  rw [if_neg h]

theorem flag_D03_skip (s : IState) (h : "gldas_soil_temperature" ∉ s.cols) :
    flag_D03 s = .ok s := by
  unfold flag_D03
  rw [if_neg h]

theorem flag_D04_skip (s : IState) (h : "precipitation" ∉ s.cols) :
    flag_D04 s = .ok s := by
  unfold flag_D04
  rw [if_neg h]

theorem flag_D05_skip (s : IState) (h : "gldas_precipitation" ∉ s.cols) :
    flag_D05 s = .ok s := by
  unfold flag_D05
  rw [if_neg h]

/-- The `peak` helper returns 0 on any window whose cells are all equal. -/
theorem peakFun_const (c : ℚ) (w : List (Option ℚ)) (h : ∀ o ∈ w, o = some c) :
    peakFun w = 0 := by
  rcases w with _ | ⟨a, _ | ⟨b, _ | ⟨d, _ | ⟨e, rest⟩⟩⟩⟩
  · rfl
  · rfl
  · rfl
  · have ha := h a (by simp)
    have hb := h b (by simp)
    have hd := h d (by simp)
    subst ha hb hd
    simp [peakFun, optLt, optGt]
  · cases rest with
    | cons f rest2 => rfl
    | nil =>
      have ha := h a (by simp)
      have hb := h b (by simp)
      have hd := h d (by simp)
      have he := h e (by simp)
      subst ha hb hd he
      simp [peakFun, optLt, optGt, optEqV]

/-- On a constant series every cell of a `peak` window equals the
constant. -/
theorem peakWin_const (n : ℕ) (c : ℚ) (j : ℕ) :
    ∀ o ∈ peakWin (smF ((List.range n).map (csRow c))) n j, o = some c := by
  intro o ho
  unfold peakWin at ho
  obtain ⟨k, _, hk⟩ := List.mem_filterMap.mp ho
  dsimp only at hk
  split at hk
  · rename_i hin
    injection hk with hk
    rw [← hk, smF_csRow]
    exact if_pos (by omega)
  · simp at hk

/-- On a constant series the `eq_new1` column never exceeds 0. -/
theorem eqNew1_const (n : ℕ) (c : ℚ) (j : ℕ) :
    optGt (eqNew1F (smF ((List.range n).map (csRow c))) n j) (some 0) = false := by
  unfold eqNew1F peakC
  dsimp only
  split
  · rw [peakFun_const c _ (peakWin_const n c (j + 1))]
    decide
  · rfl

/-- On a constant series the spike column is everywhere false. -/
theorem spikeF_const (n : ℕ) (c : ℚ) (d2 : ℕ → Option ℚ) (j : ℕ) :
    spikeF (smF ((List.range n).map (csRow c))) d2 n j = false := by
  unfold spikeF
  rw [eqNew1_const]
  simp

theorem flag_D06_const (s : IState) (n : ℕ) (c : ℚ)
    (h1 : "soil_moisture" ∈ s.cols) (h2 : "deriv2" ∈ s.cols)
    (hrows : s.rows = (List.range n).map (csRow c)) :
    flag_D06 s = .ok { s with
      cols := addCols ["eq4", "eq5", "eq6", "eq_new1", "spike_2h", "spike"] s.cols } := by
  unfold flag_D06
  rw [if_neg (not_not_intro h1), if_neg (not_not_intro h2)]
  have hcond : ∀ i, d06cond (smF s.rows) (d2F s.rows) s.rows.length i = false := by
    intro i
    rw [hrows]
    have hlen : ((List.range n).map (csRow c)).length = n := by simp
    rw [hlen]
    unfold d06cond
    rw [spikeF_const n c _ i]
    by_cases h1i : 1 ≤ i
    · rw [spikeF_const n c _ (i - 1)]
      simp
    · simp [h1i]
  rw [hrows] at hcond ⊢
  rw [show ((List.range n).map (csRow c)).length = n from by simp] at hcond
  rw [show ((List.range n).map (csRow c)).length = n from by simp]
  rw [markRows_noop _ _ _ hcond]

/-- On a constant series the absolute change is 0 or missing and never
exceeds a nonnegative threshold. -/
theorem acF_abs_const (n : ℕ) (c : ℚ) (i : ℕ) (q : ℚ) (hq : 0 ≤ q) :
    optGt ((acF (smF ((List.range n).map (csRow c))) i).map (fun v => |v|))
      (some q) = false := by
  unfold acF
  by_cases h0 : i = 0
  · rw [if_pos h0]
    rfl
  · rw [if_neg h0, smF_csRow, smF_csRow]
    by_cases hin : i < n
    · rw [if_pos hin, if_pos (show i - 1 < n by omega)]
      show optGt (some |c - c|) (some q) = false
      rw [sub_self, abs_zero]
      exact decide_eq_false (not_lt.mpr hq)
    · rw [if_neg hin]
      rfl

/-- On a constant series no record satisfies the D07 condition. -/
theorem d07negC_const (n : ℕ) (c : ℚ) (d1 d2 : ℕ → Option ℚ) (i : ℕ) :
    d07negC (smF ((List.range n).map (csRow c))) d1 d2 i = false := by
  unfold d07negC d07base d07zero
  rw [acF_abs_const n c i 1 (by norm_num), acF_abs_const n c i 5 (by norm_num)]
  simp

/-- On a constant series no record satisfies the D08 condition. -/
theorem d07posC_const (n : ℕ) (c : ℚ) (d1 d2 : ℕ → Option ℚ) (i : ℕ) :
    d07posC (smF ((List.range n).map (csRow c))) d1 d2 i = false := by
  unfold d07posC d07base
  rw [acF_abs_const n c i 1 (by norm_num)]
  simp

theorem flag_D07_const (s : IState) (n : ℕ) (c : ℚ)
    (h1 : "soil_moisture" ∈ s.cols) (h2 : "deriv1" ∈ s.cols) (h3 : "deriv2" ∈ s.cols)
    (hrows : s.rows = (List.range n).map (csRow c)) :
    flag_D07 s = .ok { s with
      cols := addCols ["absolute_change", "eq7", "eq8", "eq9", "eq9a", "eq_new2"]
        s.cols } := by
  unfold flag_D07
  rw [if_neg (not_not_intro h1), if_neg (not_not_intro h2), if_neg (not_not_intro h3)]
  have hneg : ∀ i, d07negC (smF s.rows) (d1F s.rows) (d2F s.rows) i = false := by
    intro i
    rw [hrows]
    exact d07negC_const n c _ _ i
  have hpos : ∀ i, d07posC (smF s.rows) (d1F s.rows) (d2F s.rows) i = false := by
    intro i
    rw [hrows]
    exact d07posC_const n c _ _ i
  rw [markRows_noop _ _ _ hneg, markRows_noop _ _ _ hpos]

theorem smF_csRow_or (n : ℕ) (c : ℚ) (j : ℕ) :
    smF ((List.range n).map (csRow c)) j = some c ∨
    smF ((List.range n).map (csRow c)) j = none := by
  rw [smF_csRow]
  by_cases h : j < n
  · left
    rw [if_pos h]
  · right
    rw [if_neg h]

theorem d1F_csRow_or (n : ℕ) (c : ℚ) (j : ℕ) :
    d1F ((List.range n).map (csRow c)) j = some 0 ∨
    d1F ((List.range n).map (csRow c)) j = none := by
  rw [d1F_csRow]
  by_cases h : j < n
  · left
    rw [if_pos h]
  · right
    rw [if_neg h]

/-- Every value inside a rolling window of an all-constant column equals
the constant. -/
theorem winVals_mem_of (x : ℕ → Option ℚ) (c : ℚ)
    (hx : ∀ j, x j = some c ∨ x j = none) (lo : ℤ) (w : ℕ) :
    ∀ q ∈ winVals x lo w, q = c := by
  intro q hq
  unfold winVals at hq
  obtain ⟨k, _, hk⟩ := List.mem_filterMap.mp hq
  dsimp only at hk
  split at hk
  · rcases hx (lo + (k : ℤ)).toNat with h | h
    · rw [h] at hk
      exact (Option.some.inj hk).symm
    · rw [h] at hk
      exact Option.noConfusion hk
  · exact Option.noConfusion hk

theorem sum_const_list (c : ℚ) (l : List ℚ) (h : ∀ q ∈ l, q = c) :
    l.sum = l.length * c := by
  induction l with
  | nil => simp
  | cons a t ih =>
    rw [List.sum_cons, List.length_cons,
      ih (fun q hq => h q (List.mem_cons_of_mem a hq)), h a (List.mem_cons_self a t)]
    push_cast
    ring

theorem meanQ_const (c : ℚ) (l : List ℚ) (h : ∀ q ∈ l, q = c) (hne : l ≠ []) :
    meanQ l = c := by
  unfold meanQ
  rw [sum_const_list c l h]
  have hl0 : l.length ≠ 0 := fun h0 => hne (List.length_eq_zero.mp h0)
  have hl : (l.length : ℚ) ≠ 0 := Nat.cast_ne_zero.mpr hl0
  rw [mul_comm, mul_div_assoc, div_self hl, mul_one]

theorem varQ_const (c : ℚ) (l : List ℚ) (h : ∀ q ∈ l, q = c) (hne : l ≠ []) :
    varQ l = 0 := by
  unfold varQ
  have hz : ∀ q ∈ l.map (fun v => (v - meanQ l) ^ 2), q = 0 := by
    intro q hq
    obtain ⟨v, hv, rfl⟩ := List.mem_map.mp hq
    rw [h v hv, meanQ_const c l h hne, sub_self]
    ring
  rw [sum_const_list 0 _ hz, mul_zero, zero_div]

/-- A rolling variance over an all-constant column is missing or zero. -/
theorem rollVar_allc (w m i : ℕ) (x : ℕ → Option ℚ) (c : ℚ)
    (hx : ∀ j, x j = some c ∨ x j = none) :
    rollVar w m x i = none ∨ rollVar w m x i = some 0 := by
  unfold rollVar
  dsimp only
  split
  · rename_i h
    right
    have hne : winVals x ((i : ℤ) - w + 1) w ≠ [] := by
      intro he
      rw [he] at h
      exact absurd h.2 (by norm_num)
    rw [varQ_const c _ (winVals_mem_of x c hx _ _) hne]
  · left
    rfl

/-- A rolling mean over an all-constant column is missing or the constant. -/
theorem rollMean_allc (w m i : ℕ) (x : ℕ → Option ℚ) (c : ℚ) (hm : 1 ≤ m)
    (hx : ∀ j, x j = some c ∨ x j = none) :
    rollMean w m x i = none ∨ rollMean w m x i = some c := by
  unfold rollMean
  dsimp only
  split
  · rename_i h
    right
    have hne : winVals x ((i : ℤ) - w + 1) w ≠ [] := by
      intro he
      rw [he] at h
      simp at h
      omega
    rw [meanQ_const c _ (winVals_mem_of x c hx _ _) hne]
  · left
    rfl

/-- The raw variance-over-mean ratio of `flag_D09` on a constant series is
zero or NaN. -/
theorem relVar_div_or (n : ℕ) (c : ℚ) (j : ℕ) :
    XV.div (XV.ofO (roundO 4 (rollVar 13 13 (smF ((List.range n).map (csRow c))) (j + 12))))
      (XV.ofO (roundO 4 (rollMean 13 13 (smF ((List.range n).map (csRow c))) (j + 12)))) =
      XV.num 0 ∨
    XV.div (XV.ofO (roundO 4 (rollVar 13 13 (smF ((List.range n).map (csRow c))) (j + 12))))
      (XV.ofO (roundO 4 (rollMean 13 13 (smF ((List.range n).map (csRow c))) (j + 12)))) =
      XV.nan := by
  rcases rollVar_allc 13 13 (j + 12) _ c (smF_csRow_or n c) with h1 | h1 <;>
    rcases rollMean_allc 13 13 (j + 12) _ c (by norm_num) (smF_csRow_or n c) with h2 | h2 <;>
    rw [h1, h2]
  · right
    rfl
  · right
    rfl
  · right
    rfl
  · show XV.div (XV.num (roundQ 4 0)) (XV.num (roundQ 4 c)) = XV.num 0 ∨
      XV.div (XV.num (roundQ 4 0)) (XV.num (roundQ 4 c)) = XV.nan
    rw [show roundQ 4 (0 : ℚ) = 0 from by decide]
    by_cases hd : roundQ 4 c = 0
    · right
      show (if roundQ 4 c = 0 then (if (0 : ℚ) = 0 then XV.nan else if 0 < (0 : ℚ) then XV.pinf
        else XV.ninf) else XV.num (0 / roundQ 4 c)) = XV.nan
      rw [if_pos hd, if_pos rfl]
    · left
      show (if roundQ 4 c = 0 then (if (0 : ℚ) = 0 then XV.nan else if 0 < (0 : ℚ) then XV.pinf
        else XV.ninf) else XV.num (0 / roundQ 4 c)) = XV.num 0
      rw [if_neg hd, zero_div]

/-- The `rel_var` column of `flag_D09` on a constant series is zero or NaN. -/
theorem relVar_const (n : ℕ) (c : ℚ) (j : ℕ) :
    relVarF (smF ((List.range n).map (csRow c))) (smF ((List.range n).map (csRow c))) j =
      XV.num 0 ∨
    relVarF (smF ((List.range n).map (csRow c))) (smF ((List.range n).map (csRow c))) j =
      XV.nan := by
  unfold relVarF
  dsimp only
  rcases relVar_div_or n c j with h | h <;> rw [h]
  · left
    exact ite_self _
  · cases hb : optEqV (smF ((List.range n).map (csRow c)) j) (some 0) with
    | true =>
      left
      rw [if_pos (show (XV.nan.isna && true) = true from rfl)]
    | false =>
      right
      rw [if_neg (show ¬((XV.nan.isna && false) = true) from by simp)]

/-- The event-2 threshold comparison of `flag_D09` is false everywhere on a
constant series. -/
theorem relVar_leB_const (n : ℕ) (c : ℚ) (i : ℕ) :
    XV.leB (XV.num (1/1000))
      (if i = 0 then XV.nan else
        XV.sub (relVarF (smF ((List.range n).map (csRow c)))
            (smF ((List.range n).map (csRow c))) i)
          (relVarF (smF ((List.range n).map (csRow c)))
            (smF ((List.range n).map (csRow c))) (i - 1))) = false := by
  by_cases h0 : i = 0
  · rw [if_pos h0]
    rfl
  · rw [if_neg h0]
    rcases relVar_const n c i with h1 | h1 <;>
      rcases relVar_const n c (i - 1) with h2 | h2 <;> rw [h1, h2]
    · show XV.leB (XV.num (1/1000)) (XV.num (0 - 0)) = false
      decide
    · rfl
    · rfl
    · rfl

/-- The qflag cells of a constant series never mention D07. -/
theorem containsD07_qfF_const (n : ℕ) (c : ℚ) (i : ℕ) :
    containsD07 (qfF ((List.range n).map (csRow c)) i) = false := by
  rw [qfF_csRow]
  by_cases h : i < n
  · rw [if_pos h]
    rfl
  · rw [if_neg h]
    rfl

/-- The full event column of `flag_D09` vanishes on a constant series. -/
theorem ev2_const (n : ℕ) (c : ℚ) (i : ℕ) :
    (if XV.leB (XV.num (1/1000))
        (if i = 0 then XV.nan else
          XV.sub (relVarF (smF ((List.range n).map (csRow c)))
              (smF ((List.range n).map (csRow c))) i)
            (relVarF (smF ((List.range n).map (csRow c)))
              (smF ((List.range n).map (csRow c))) (i - 1))) &&
        (if containsD07 (qfF ((List.range n).map (csRow c)) i) &&
            XV.ltB (relVarF (smF ((List.range n).map (csRow c)))
              (smF ((List.range n).map (csRow c))) i) (XV.num (1/1000))
          then (1 : ℤ) else 0) = 0
      then (-1 : ℤ)
      else if containsD07 (qfF ((List.range n).map (csRow c)) i) &&
            XV.ltB (relVarF (smF ((List.range n).map (csRow c)))
              (smF ((List.range n).map (csRow c))) i) (XV.num (1/1000))
          then (1 : ℤ) else 0) = 0 := by
  rw [containsD07_qfF_const n c i, relVar_leB_const n c i]
  simp

/-- The plateau mask of an all-zero event column is all-zero. -/
theorem plateauGo_zeros (n : ℕ) :
    plateauGo 0 (List.replicate n 0) = List.replicate n 0 := by
  induction n with
  | zero => rfl
  | succ m ih =>
    rw [List.replicate_succ]
    show (max (min ((0 : ℤ) + 0) 1) 0) :: plateauGo (max (min ((0 : ℤ) + 0) 1) 0)
      (List.replicate m 0) = 0 :: List.replicate m 0
    rw [show max (min ((0 : ℤ) + 0) 1) 0 = 0 from by decide]
    rw [ih]

theorem plateau_mask_zeros (n : ℕ) :
    plateau_mask ((List.range n).map (fun _ => (0 : ℤ))) =
      (List.range n).map (fun _ => (0 : ℤ)) := by
  have hrep : (List.range n).map (fun _ => (0 : ℤ)) = List.replicate n 0 := by
    rw [List.map_const', List.length_range]
  rw [hrep]
  exact plateauGo_zeros n

theorem foldl_max_zeros (l : List ℚ) (h : ∀ q ∈ l, q = 0) :
    List.foldl (fun acc v => match acc with
      | none => some v
      | some mx => some (max mx v)) (some (0 : ℚ)) l = some 0 := by
  induction l with
  | nil => rfl
  | cons a t ih =>
    rw [List.foldl_cons]
    show List.foldl _ (some (max 0 a)) t = some 0
    rw [h a (List.mem_cons_self a t), max_self]
    exact ih (fun q hq => h q (List.mem_cons_of_mem a hq))

/-- The running maximum of an all-zero list is missing or zero. -/
theorem listMax_zeros (l : List ℚ) (h : ∀ q ∈ l, q = 0) :
    listMax l = none ∨ listMax l = some 0 := by
  cases l with
  | nil =>
    left
    rfl
  | cons a t =>
    right
    unfold listMax
    rw [List.foldl_cons]
    show List.foldl _ (some a) t = some 0
    rw [h a (List.mem_cons_self a t)]
    exact foldl_max_zeros t (fun q hq => h q (List.mem_cons_of_mem a hq))

theorem foldl_min_zeros (l : List ℚ) (h : ∀ q ∈ l, q = 0) :
    List.foldl (fun acc v => match acc with
      | none => some v
      | some mn => some (min mn v)) (some (0 : ℚ)) l = some 0 := by
  induction l with
  | nil => rfl
  | cons a t ih =>
    rw [List.foldl_cons]
    show List.foldl _ (some (min 0 a)) t = some 0
    rw [h a (List.mem_cons_self a t), min_self]
    exact ih (fun q hq => h q (List.mem_cons_of_mem a hq))

/-- The running minimum of an all-zero list is missing or zero. -/
theorem listMin_zeros (l : List ℚ) (h : ∀ q ∈ l, q = 0) :
    listMin l = none ∨ listMin l = some 0 := by
  cases l with
  | nil =>
    left
    rfl
  | cons a t =>
    right
    unfold listMin
    rw [List.foldl_cons]
    show List.foldl _ (some a) t = some 0
    rw [h a (List.mem_cons_self a t)]
    exact foldl_min_zeros t (fun q hq => h q (List.mem_cons_of_mem a hq))

/-- A rolling maximum over a column of zeros and gaps is missing or zero. -/
theorem rollMax_allc0 (w m t : ℕ) (x : ℕ → Option ℚ)
    (hx : ∀ j, x j = some 0 ∨ x j = none) :
    rollMax w m x t = none ∨ rollMax w m x t = some 0 := by
  unfold rollMax
  dsimp only
  split
  · rcases listMax_zeros _ (winVals_mem_of x 0 hx _ _) with h | h <;> rw [h]
    · left
      rfl
    · right
      rfl
  · left
    rfl

/-- A rolling minimum over a column of zeros and gaps is missing or zero. -/
theorem rollMin_allc0 (w m t : ℕ) (x : ℕ → Option ℚ)
    (hx : ∀ j, x j = some 0 ∨ x j = none) :
    rollMin w m x t = none ∨ rollMin w m x t = some 0 := by
  unfold rollMin
  dsimp only
  split
  · rcases listMin_zeros _ (winVals_mem_of x 0 hx _ _) with h | h <;> rw [h]
    · left
      rfl
    · right
      rfl
  · left
    rfl

/-- The D09 marking condition is false everywhere on an all-zero plateau
column. -/
theorem rollMax_pl_const (n i : ℕ) :
    optGt (rollMax 13 13
      (fun j => ((((List.range n).map (fun _ => (0 : ℤ))).get? j).map (fun z => (z : ℚ)))) i)
      (some 0) = false := by
  have hx : ∀ j, ((((List.range n).map (fun _ => (0 : ℤ))).get? j).map (fun z => (z : ℚ))) =
      some 0 ∨
      ((((List.range n).map (fun _ => (0 : ℤ))).get? j).map (fun z => (z : ℚ))) = none := by
    intro j
    rw [get?_range_map]
    by_cases h : j < n
    · left
      rw [if_pos h]
      rfl
    · right
      rw [if_neg h]
      rfl
  rcases rollMax_allc0 13 13 i _ hx with h | h <;> rw [h]
  · rfl
  · decide

/-- `find?` by timestamp on consecutively-stamped rows. -/
theorem find?_t_shift : ∀ (n : ℕ) (g : ℕ → WRow) (off : ℕ),
    (∀ i, (g i).t = off + i) → ∀ (v : ℕ),
    ((List.range n).map g).find? (fun r => r.t = v) =
      if off ≤ v ∧ v < off + n then some (g (v - off)) else none := by
  intro n
  induction n with
  | zero =>
    intro g off ht v
    rw [List.range_zero, List.map_nil, List.find?_nil, if_neg (by omega)]
  | succ m ih =>
    intro g off ht v
    rw [List.range_succ_eq_map, List.map_cons, List.map_map]
    by_cases hv : (g 0).t = v
    · rw [List.find?_cons_of_pos _ (by simpa using hv)]
      have hv0 : v = off := by
        have h0 := ht 0
        omega
      rw [if_pos (by omega)]
      rw [hv0, Nat.sub_self]
    · rw [List.find?_cons_of_neg _ (by simpa using hv)]
      rw [ih (g ∘ Nat.succ) (off + 1) (fun i => by
        simp only [Function.comp_apply]
        have hh := ht (Nat.succ i)
        omega) v]
      by_cases h2 : off + 1 ≤ v ∧ v < off + 1 + m
      · rw [if_pos h2, if_pos (by omega)]
        simp only [Function.comp_apply]
        have harg : Nat.succ (v - (off + 1)) = v - off := by omega
        rw [harg]
      · rw [if_neg h2, if_neg (by
          intro hcon
          have h0 := ht 0
          exact hv (by omega))]

theorem getLast?_range_map (g : ℕ → WRow) (k : ℕ) :
    ((List.range (k + 1)).map g).getLast? = some (g k) := by
  rw [List.range_succ, List.map_append]
  simp

/-- Unfolding `resampleH` on a nonempty row list. -/
theorem resampleH_cons (r0 : WRow) (rest : List WRow) :
    resampleH (r0 :: rest) =
      (List.range (((((r0 :: rest).getLast?).getD r0).t) - r0.t + 1)).map (fun k =>
        match (r0 :: rest).find? (fun r => r.t = r0.t + k) with
        | some r => r
        | none => blankRow (r0.t + k)) := rfl

/-- Re-expanding a gap-free hourly grid is the identity. -/
theorem resampleH_const (n : ℕ) (c : ℚ) (hn : 1 ≤ n) :
    resampleH ((List.range n).map (csRow c)) = (List.range n).map (csRow c) := by
  obtain ⟨k, rfl⟩ : ∃ k, n = k + 1 := ⟨n - 1, by omega⟩
  have htc : ∀ i, (csRow c i).t = 0 + i := by
    intro i
    show i = 0 + i
    omega
  have hshape : (List.range (k + 1)).map (csRow c) =
      csRow c 0 :: ((List.range k).map Nat.succ).map (csRow c) := by
    rw [List.range_succ_eq_map, List.map_cons]
  rw [hshape, resampleH_cons, ← hshape]
  rw [getLast?_range_map (csRow c) k]
  have ht0 : (csRow c 0).t = 0 := rfl
  have htk : (csRow c k).t = k := rfl
  simp only [Option.getD_some, ht0, htk]
  rw [show k - 0 + 1 = k + 1 from by omega]
  apply List.map_congr_left
  intro j hj
  have hjlt : j < k + 1 := List.mem_range.mp hj
  rw [find?_t_shift (k + 1) (csRow c) 0 htc (0 + j)]
  rw [if_pos (by omega : 0 ≤ 0 + j ∧ 0 + j < 0 + (k + 1))]
  show csRow c (0 + j - 0) = csRow c j
  congr 1
  omega

/-- `flag_D09` on a constant hourly series only appends its work columns. -/
theorem flag_D09_const (s : IState) (n : ℕ) (c : ℚ) (hn : 1 ≤ n)
    (h1 : "soil_moisture" ∈ s.cols) (hdt : s.dtIndex = true)
    (hrows : s.rows = (List.range n).map (csRow c)) :
    flag_D09 s = .ok { s with
      cols := addCols ["rel_var", "event", "plateau", "end"] s.cols } := by
  unfold flag_D09
  rw [if_neg (not_not_intro h1)]
  dsimp only
  rw [hrows, hdt]
  rw [show ((List.range n).map (csRow c)).filter (fun r => r.sm.isSome) =
      (List.range n).map (csRow c) from List.filter_eq_self.mpr (by
    intro r hr
    obtain ⟨i, _, rfl⟩ := List.mem_map.mp hr
    rfl)]
  simp only [List.length_map, List.length_range]
  simp only [ev2_const, plateau_mask_zeros, rollMax_pl_const]
  rw [markRows_noop _ _ _ (fun i => rfl)]
  rw [resampleH_const n c hn]
  rw [ite_self]

/-- The rise table is empty when the maximum column holds only zeros and
gaps. -/
theorem riseList_zero_col (groups grp : List ℤ) (col : List (Option ℚ))
    (hcol : ∀ o ∈ col, o = none ∨ o = some 0) :
    riseList groups grp col = [] := by
  unfold riseList
  rw [List.filterMap_eq_nil]
  intro g hg
  cases hfv : firstNN grp col g with
  | none => rfl
  | some v =>
    have hvmem : v ∈ (grp.zip col).filterMap (fun p => if p.1 = g then p.2 else none) := by
      unfold firstNN at hfv
      exact List.mem_of_mem_head? (by rw [hfv]; rfl)
    obtain ⟨p, hp, hpf⟩ := List.mem_filterMap.mp hvmem
    have hv0 : v = 0 := by
      rcases hcol p.2 (List.of_mem_zip hp).2 with h | h
      · rw [h] at hpf
        split at hpf
        · exact Option.noConfusion hpf
        · exact Option.noConfusion hpf
      · rw [h] at hpf
        split at hpf
        · exact (Option.some.inj hpf).symm
        · exact Option.noConfusion hpf
    subst hv0
    show (if (1/4 : ℚ) ≤ roundQ 3 0 then some (g, roundQ 3 0) else none) = none
    rw [if_neg (by decide)]

/-- The drop table is empty when the minimum column holds only zeros and
gaps. -/
theorem dropList_zero_col (groups grp : List ℤ) (col : List (Option ℚ))
    (hcol : ∀ o ∈ col, o = none ∨ o = some 0) :
    dropList groups grp col = [] := by
  unfold dropList
  rw [List.filterMap_eq_nil]
  intro g hg
  cases hfv : lastNN grp col g with
  | none => rfl
  | some v =>
    have hvmem : v ∈ (grp.zip col).filterMap (fun p => if p.1 = g then p.2 else none) := by
      unfold lastNN at hfv
      exact List.mem_of_mem_getLast? (by rw [hfv]; rfl)
    obtain ⟨p, hp, hpf⟩ := List.mem_filterMap.mp hvmem
    have hv0 : v = 0 := by
      rcases hcol p.2 (List.of_mem_zip hp).2 with h | h
      · rw [h] at hpf
        split at hpf
        · exact Option.noConfusion hpf
        · exact Option.noConfusion hpf
      · rw [h] at hpf
        split at hpf
        · exact (Option.some.inj hpf).symm
        · exact Option.noConfusion hpf
    subst hv0
    show (if roundQ 3 (0 : ℚ) < 0 then some (g, roundQ 3 0) else none) = none
    rw [if_neg (by decide)]

/-- `flag_D10` on a constant hourly series only appends its work columns. -/
theorem flag_D10_const (s : IState) (n : ℕ) (c : ℚ)
    (h1 : "soil_moisture" ∈ s.cols) (h2 : "deriv1" ∈ s.cols)
    (hrows : s.rows = (List.range n).map (csRow c)) :
    flag_D10 s = .ok { s with
      cols := addCols ["VAR", "VAR_grouped", "maximum", "minimum"] s.cols } := by
  unfold flag_D10
  rw [if_neg (not_not_intro h1), if_neg (not_not_intro h2)]
  dsimp only
  rw [hrows]
  rw [show ((List.range n).map (csRow c)).filter (fun r => r.sm.isSome) =
      (List.range n).map (csRow c) from List.filter_eq_self.mpr (by
    intro r hr
    obtain ⟨i, _, rfl⟩ := List.mem_map.mp hr
    rfl)]
  simp only [List.length_map, List.length_range]
  have hcolmax : ∀ o ∈ (List.range n).map
      (fun i => rollMax 25 1 (d1F ((List.range n).map (csRow c))) (i + 12)),
      o = none ∨ o = some 0 := by
    intro o ho
    obtain ⟨i, _, rfl⟩ := List.mem_map.mp ho
    exact rollMax_allc0 25 1 (i + 12) _ (d1F_csRow_or n c)
  have hcolmin : ∀ o ∈ (List.range n).map
      (fun i => rollMin 25 1 (d1F ((List.range n).map (csRow c))) (i + 24)),
      o = none ∨ o = some 0 := by
    intro o ho
    obtain ⟨i, _, rfl⟩ := List.mem_map.mp ho
    exact rollMin_allc0 25 1 (i + 24) _ (d1F_csRow_or n c)
  simp only [riseList_zero_col _ _ _ hcolmax, dropList_zero_col _ _ _ hcolmin,
    List.lookup_nil, Option.isSome_none, Bool.or_self, List.filter_false,
    List.drop_nil, List.filterMap_nil, List.foldl_nil, markTs_nil, if_true,
    List.append_nil]

/-- `flag_G` tags every row of a constant series with the good flag. -/
theorem flag_G_const (s : IState) (n : ℕ) (c : ℚ)
    (hrows : s.rows = (List.range n).map (csRow c)) :
    flag_G s = .ok { s with
      rows := (List.range n).map (fun i => addFlagRow .G (csRow c i)) } := by
  unfold flag_G
  rw [hrows]
  have hmap : ((List.range n).map (csRow c)).map
      (fun r => if r.qf = some [] then addFlagRow .G r else r) =
      (List.range n).map (fun i => addFlagRow .G (csRow c i)) := by
    rw [List.map_map]
    apply List.map_congr_left
    intro i _
    show (if (csRow c i).qf = some [] then addFlagRow .G (csRow c i) else csRow c i) =
      addFlagRow .G (csRow c i)
    rw [if_pos (show (csRow c i).qf = some [] from rfl)]
  rw [hmap]

theorem bind_ok_eq {A B : Type} (a : A) (f : A → Except PyErr B) :
    Except.bind (Except.ok a) f = f a := rfl

/-- The engine state reached on a constant series, parameterized by the
current column list. -/
def c9state (n : ℕ) (c : ℚ) (L : List String) : IState :=
  { cols := L, dtIndex := true, varName := "soil_moisture", sat_point := none,
    depth_from := none, rows := (List.range n).map (csRow c) }

/-- The engine state after `flag_G` on a constant series. -/
def c9done (n : ℕ) (c : ℚ) (L : List String) : IState :=
  { cols := L, dtIndex := true, varName := "soil_moisture", sat_point := none,
    depth_from := none,
    rows := (List.range n).map (fun i => addFlagRow .G (csRow c i)) }

theorem flag_C01_c9 (n : ℕ) (c : ℚ) (L : List String) (hc : 0 ≤ c) :
    flag_C01 (c9state n c L) = .ok (c9state n c L) :=
  flag_C01_const (c9state n c L) n c rfl rfl hc

theorem flag_C02_c9 (n : ℕ) (c : ℚ) (L : List String) (hc : c ≤ 60) :
    flag_C02 (c9state n c L) = .ok (c9state n c L) :=
  flag_C02_const (c9state n c L) n c rfl rfl hc

theorem flag_C03_c9 (n : ℕ) (c : ℚ) (L : List String) :
    flag_C03 (c9state n c L) = .ok (c9state n c L) :=
  flag_C03_none (c9state n c L) rfl

theorem flag_D01_c9 (n : ℕ) (c : ℚ) (L : List String) (h : "soil_temperature" ∉ L) :
    flag_D01 (c9state n c L) = .ok (c9state n c L) :=
  flag_D01_skip _ h

theorem flag_D02_c9 (n : ℕ) (c : ℚ) (L : List String) (h : "air_temperature" ∉ L) :
    flag_D02 (c9state n c L) = .ok (c9state n c L) :=
  flag_D02_skip _ h

theorem flag_D03_c9 (n : ℕ) (c : ℚ) (L : List String)
    (h : "gldas_soil_temperature" ∉ L) :
    flag_D03 (c9state n c L) = .ok (c9state n c L) :=
  flag_D03_skip _ h

theorem flag_D04_c9 (n : ℕ) (c : ℚ) (L : List String) (h : "precipitation" ∉ L) :
    flag_D04 (c9state n c L) = .ok (c9state n c L) :=
  flag_D04_skip _ h

theorem flag_D05_c9 (n : ℕ) (c : ℚ) (L : List String) (h : "gldas_precipitation" ∉ L) :
    flag_D05 (c9state n c L) = .ok (c9state n c L) :=
  flag_D05_skip _ h

theorem flag_D06_c9 (n : ℕ) (c : ℚ) (L : List String)
    (h1 : "soil_moisture" ∈ L) (h2 : "deriv2" ∈ L) :
    flag_D06 (c9state n c L) =
      .ok (c9state n c (addCols ["eq4", "eq5", "eq6", "eq_new1", "spike_2h", "spike"] L)) := by
  have h := flag_D06_const (c9state n c L) n c h1 h2 rfl
  exact h

theorem flag_D07_c9 (n : ℕ) (c : ℚ) (L : List String)
    (h1 : "soil_moisture" ∈ L) (h2 : "deriv1" ∈ L) (h3 : "deriv2" ∈ L) :
    flag_D07 (c9state n c L) =
      .ok (c9state n c
        (addCols ["absolute_change", "eq7", "eq8", "eq9", "eq9a", "eq_new2"] L)) := by
  have h := flag_D07_const (c9state n c L) n c h1 h2 h3 rfl
  exact h

theorem flag_D09_c9 (n : ℕ) (c : ℚ) (L : List String) (hn : 1 ≤ n)
    (h1 : "soil_moisture" ∈ L) :
    flag_D09 (c9state n c L) =
      .ok (c9state n c (addCols ["rel_var", "event", "plateau", "end"] L)) := by
  have h := flag_D09_const (c9state n c L) n c hn h1 rfl rfl
  exact h

theorem flag_D10_c9 (n : ℕ) (c : ℚ) (L : List String)
    (h1 : "soil_moisture" ∈ L) (h2 : "deriv1" ∈ L) :
    flag_D10 (c9state n c L) =
      .ok (c9state n c (addCols ["VAR", "VAR_grouped", "maximum", "minimum"] L)) := by
  have h := flag_D10_const (c9state n c L) n c h1 h2 rfl
  exact h

theorem flag_G_c9 (n : ℕ) (c : ℚ) (L : List String) :
    flag_G (c9state n c L) = .ok (c9done n c L) := by
  have h := flag_G_const (c9state n c L) n c rfl
  exact h

/-- The full run on a constant series, step by step. -/
theorem runAll_const (n : ℕ) (c : ℚ) (hn : 1 ≤ n) (h0 : 0 ≤ c) (h60 : c ≤ 60) :
    runAll (some (constDF n c)) none none none none =
      .ok { cols := (constState n c).cols,
            rows := (List.range n).map (fun i => addFlagRow .G (csRow c i)) } := by
  unfold runAll
  rw [init_const n c]
  simp only [bind_ok_eq]
  unfold run
  dsimp only
  rw [show ({ constState n c with
      sat_point := if truthy (constState n c).sat_point then (constState n c).sat_point
        else none,
      depth_from := if truthy (constState n c).depth_from then (constState n c).depth_from
        else none } : IState) = constState n c from rfl]
  rw [if_pos (show (constState n c).varName = "soil_moisture" from rfl)]
  rw [savgol_const n c hn]
  rw [show constMid n c = c9state n c ["soil_moisture", "qflag", "deriv1", "deriv2"] from rfl]
  rw [flag_C01_c9 n c ["soil_moisture", "qflag", "deriv1", "deriv2"] h0]
  simp only [bind_ok_eq]
  rw [flag_C02_c9 n c ["soil_moisture", "qflag", "deriv1", "deriv2"] h60]
  simp only [bind_ok_eq]
  rw [flag_C03_c9 n c ["soil_moisture", "qflag", "deriv1", "deriv2"]]
  simp only [bind_ok_eq]
  rw [flag_D01_c9 n c ["soil_moisture", "qflag", "deriv1", "deriv2"] (by decide)]
  simp only [bind_ok_eq]
  rw [flag_D02_c9 n c ["soil_moisture", "qflag", "deriv1", "deriv2"] (by decide)]
  simp only [bind_ok_eq]
  rw [flag_D03_c9 n c ["soil_moisture", "qflag", "deriv1", "deriv2"] (by decide)]
  simp only [bind_ok_eq]
  rw [flag_D04_c9 n c ["soil_moisture", "qflag", "deriv1", "deriv2"] (by decide)]
  simp only [bind_ok_eq]
  rw [flag_D05_c9 n c ["soil_moisture", "qflag", "deriv1", "deriv2"] (by decide)]
  simp only [bind_ok_eq]
  rw [flag_D06_c9 n c ["soil_moisture", "qflag", "deriv1", "deriv2"] (by decide) (by decide)]
  rw [show addCols ["eq4", "eq5", "eq6", "eq_new1", "spike_2h", "spike"] ["soil_moisture", "qflag", "deriv1", "deriv2"] =
    ["soil_moisture", "qflag", "deriv1", "deriv2", "eq4", "eq5", "eq6", "eq_new1", "spike_2h", "spike"] from rfl]
  simp only [bind_ok_eq]
  rw [flag_D07_c9 n c ["soil_moisture", "qflag", "deriv1", "deriv2", "eq4", "eq5", "eq6", "eq_new1", "spike_2h", "spike"] (by decide) (by decide) (by decide)]
  rw [show addCols ["absolute_change", "eq7", "eq8", "eq9", "eq9a", "eq_new2"] ["soil_moisture", "qflag", "deriv1", "deriv2", "eq4", "eq5", "eq6", "eq_new1", "spike_2h", "spike"] =
    ["soil_moisture", "qflag", "deriv1", "deriv2", "eq4", "eq5", "eq6", "eq_new1", "spike_2h", "spike", "absolute_change", "eq7", "eq8", "eq9", "eq9a", "eq_new2"] from rfl]
  simp only [bind_ok_eq]
  rw [flag_D09_c9 n c ["soil_moisture", "qflag", "deriv1", "deriv2", "eq4", "eq5", "eq6", "eq_new1", "spike_2h", "spike", "absolute_change", "eq7", "eq8", "eq9", "eq9a", "eq_new2"] hn (by decide)]
  rw [show addCols ["rel_var", "event", "plateau", "end"] ["soil_moisture", "qflag", "deriv1", "deriv2", "eq4", "eq5", "eq6", "eq_new1", "spike_2h", "spike", "absolute_change", "eq7", "eq8", "eq9", "eq9a", "eq_new2"] =
    ["soil_moisture", "qflag", "deriv1", "deriv2", "eq4", "eq5", "eq6", "eq_new1", "spike_2h", "spike", "absolute_change", "eq7", "eq8", "eq9", "eq9a", "eq_new2", "rel_var", "event", "plateau", "end"] from rfl]
  simp only [bind_ok_eq]
  rw [flag_D10_c9 n c ["soil_moisture", "qflag", "deriv1", "deriv2", "eq4", "eq5", "eq6", "eq_new1", "spike_2h", "spike", "absolute_change", "eq7", "eq8", "eq9", "eq9a", "eq_new2", "rel_var", "event", "plateau", "end"] (by decide) (by decide)]
  rw [show addCols ["VAR", "VAR_grouped", "maximum", "minimum"] ["soil_moisture", "qflag", "deriv1", "deriv2", "eq4", "eq5", "eq6", "eq_new1", "spike_2h", "spike", "absolute_change", "eq7", "eq8", "eq9", "eq9a", "eq_new2", "rel_var", "event", "plateau", "end"] =
    ["soil_moisture", "qflag", "deriv1", "deriv2", "eq4", "eq5", "eq6", "eq_new1", "spike_2h", "spike", "absolute_change", "eq7", "eq8", "eq9", "eq9a", "eq_new2", "rel_var", "event", "plateau", "end", "VAR", "VAR_grouped", "maximum", "minimum"] from rfl]
  simp only [bind_ok_eq]
  rw [flag_G_c9 n c ["soil_moisture", "qflag", "deriv1", "deriv2", "eq4", "eq5", "eq6", "eq_new1", "spike_2h", "spike", "absolute_change", "eq7", "eq8", "eq9", "eq9a", "eq_new2", "rel_var", "event", "plateau", "end", "VAR", "VAR_grouped", "maximum", "minimum"]]
  simp only [bind_ok_eq]
  rfl

/-- C1 (code bug): on a valid hourly series whose middle soil-moisture
sample is the missing marker, the full run returns 2 rows for a 3-row
input: `flag_D09` re-expands to the hourly grid, but `flag_D10` drops the
missing rows again and never restores them, so the output is shorter than
the input. -/
theorem c1_full_run_drops_missing_rows :
    exC1df.rows.length = 3 ∧
    (runAll (some exC1df) none none none none).map (fun q => q.rows.length) =
      Except.ok 2 := by
  exact ⟨rfl, rfl⟩

/-- C4 (code bug): on a frame whose primary variable is air temperature
(not soil moisture), the full run does not stop after the C01/C02
threshold detectors as the documentation states; it proceeds into
`flag_D06`, which reads the absent soil-moisture column and raises a
`KeyError` instead of terminating normally. -/
theorem c4_non_sm_run_raises_keyerror :
    runAll (some exC4df) none none none none =
      Except.error (PyErr.keyError "soil_moisture") := by
  exact rfl

/-- C8 counterexample: a DataFrame with no columns is one whose primary
variable cannot be identified, yet the constructor fails with an
`IndexError` (from `data.keys()[0]`), not with a `FormatError` as the
claim states. -/
theorem c8_empty_frame_cex :
    initIface (some emptyDF) none none = Except.error PyErr.indexError ∧
    initIface (some emptyDF) none none ≠ Except.error PyErr.formatError := by
  refine ⟨rfl, ?_⟩
  intro h
  exact PyErr.noConfusion (Except.error.inj h)

/-- C5 counterexample: on the series `x = [1, 2, 4]` the ratio column
`eq4` at index 2 equals `round(x[2]/x[1], 3) = 2` and differs from the
claimed `round(x[2]/x[0], 3) = 4`. -/
theorem c5_eq4_previous_sample_cex :
    eq4F exC5x 2 = XV.num 2 ∧
    eq4F exC5x 2 ≠ xvRound 3 (XV.div (XV.ofO (exC5x 2)) (XV.ofO (exC5x 0))) := by
  exact ⟨rfl, by decide⟩

/-- C7 counterexample: with a supplied saturation point `S = 0` and a
record with soil moisture `1 > S`, `flag_C03` returns the state unchanged
(the Python truthiness test `if not self.sat_point` treats 0 like an
absent saturation point), so the record keeps an empty qflag set instead
of receiving C03. -/
theorem c7_zero_sat_point_cex :
    flag_C03 exC7st = Except.ok exC7st ∧
    optGt (smF exC7st.rows 0) (some 0) = true ∧
    qfF exC7st.rows 0 = some [] := by
  exact ⟨rfl, rfl, rfl⟩

/-- C9 (confirmed): for every constant hourly series `x[i] = c` with
`0 ≤ c ≤ 60` (at least one record), with no ancillary columns and no
saturation point supplied, the full pipeline succeeds and assigns exactly
the flag set `{G}` to every record. -/
theorem c9_constant_series_all_good (n : ℕ) (c : ℚ) (hn : 1 ≤ n) (h0 : 0 ≤ c)
    (h60 : c ≤ 60) :
    ∃ out : QFrame, runAll (some (constDF n c)) none none none none = .ok out ∧
      out.rows.length = n ∧ ∀ r ∈ out.rows, r.qf = some [Flag.G] := by
  refine ⟨_, runAll_const n c hn h0 h60, ?_, ?_⟩
  · simp
  · intro r hr
    obtain ⟨i, _, rfl⟩ := List.mem_map.mp hr
    rfl

/-- C9 witness: the three-record constant series at 5 m³/m³. -/
theorem c9_witness : ∃ out : QFrame,
    runAll (some (constDF 3 5)) none none none none = .ok out ∧
    out.rows.length = 3 ∧ ∀ r ∈ out.rows, r.qf = some [Flag.G] :=
  c9_constant_series_all_good 3 5 (by norm_num) (by norm_num) (by norm_num)

end Flagit
